import Mathlib

/-!
Verification development for an Ethereum trading MCP server (Rust).

The development shallowly embeds the numeric core (`src/precision.rs`, built on
the `rust_decimal::Decimal` type), the swap-simulation pipeline
(`src/tools/swap.rs`), the price oracle (`src/tools/price.rs`), the token
registry (`src/tokens.rs`) and the JSON-RPC dispatcher (`src/server/mcp.rs`).

Modelling conventions:
* `rust_decimal::Decimal` is a sign + 96-bit mantissa + scale (0..=28) decimal.
  It is embedded as `Dec` (signed integer mantissa, natural scale);
  well-formed values satisfy `|num| < 2^96` and `scale ≤ 28`.
  Arithmetic is value-exact whenever the exact result is representable
  (which is what the library guarantees); when the exact value is not
  representable the library reduces the scale and rounds the final digit —
  embedded here by `fitFrac`, which rounds half-away-from-zero at the largest
  fitting scale.  Every theorem below is insensitive to the precise tie-break
  used on that inexact branch.  All operations are computed on integers; the
  rational value of a `Dec` (`Dec.val`) appears only in specifications.
* A Rust function returning `Result<T, EthereumError>` is embedded as
  `Option (Except EthError T)`: `none` models a panic (`Decimal`'s
  unchecked `*`, `/`, `-` operators panic on overflow), `some (.error e)`
  models `Err(e)` and `some (.ok t)` models `Ok(t)`.
* RPC/chain-gateway calls are free inputs: each embedded pipeline takes an
  environment record carrying the outcome of every gateway call it makes.
-/

deriving instance DecidableEq for Except

/-- Embedding of `rust_decimal::Decimal`: scaled mantissa `num` and scale
(number of fractional digits).  The represented value is `num / 10^scale`. -/
structure Dec where
  num : Int
  scale : Nat
  deriving DecidableEq, Repr

namespace Dec

/-- The rational value represented by a `Dec` (specification only). -/
def val (d : Dec) : ℚ := (d.num : ℚ) / (10 : ℚ) ^ d.scale

/-- `Decimal::from(n)` for an unsigned integer. -/
def ofNat (n : Nat) : Dec := ⟨(n : Int), 0⟩

/-- Well-formedness invariant of the 96-bit decimal representation. -/
def wf (d : Dec) : Prop := d.num.natAbs < 2 ^ 96 ∧ d.scale ≤ 28

instance : DecidablePred wf := fun d => by
  unfold wf; infer_instance

/-- Value comparison of two decimals (`PartialOrd for Decimal`), computed by
cross-multiplication. -/
def lt (a b : Dec) : Prop := a.num * 10 ^ b.scale < b.num * 10 ^ a.scale

instance (a b : Dec) : Decidable (a.lt b) := by
  unfold lt; infer_instance

/-- `Decimal::is_zero`. -/
def isZero (d : Dec) : Prop := d.num = 0

instance (d : Dec) : Decidable d.isZero := by
  unfold isZero; infer_instance

end Dec

/-- `⌊a / b + 1/2⌋` for naturals (`b > 0`): round-half-up of a nonnegative
fraction. -/
def roundHalfNat (a b : Nat) : Nat := (2 * a + b) / (2 * b)

/-- Round the fraction `n / d` (`d > 0`) half away from zero to an integer:
the final-digit rounding `rust_decimal` uses when it must drop decimal digits
to fit the representation. -/
def roundFracAway (n : Int) (d : Nat) : Int :=
  if n < 0 then -(roundHalfNat n.natAbs d : Int) else (roundHalfNat n.natAbs d : Int)

/-- Mantissa of `n / d` at scale `s`: `(n * 10^s) / d` rounded half away from
zero (exact whenever `d` divides `n * 10^s`). -/
def mantAt (n : Int) (d : Nat) (s : Nat) : Int := roundFracAway (n * 10 ^ s) d

/-- Scale reduction: represent `n / d` with at most `s` fractional digits,
reducing the scale while the (rounded) mantissa overflows 96 bits.
Returns `none` when even the integer rounding overflows. -/
def reduceFit (n : Int) (d : Nat) : Nat → Option Dec
  | 0 =>
    if (mantAt n d 0).natAbs < 2 ^ 96 then some ⟨mantAt n d 0, 0⟩ else none
  | s + 1 =>
    if (mantAt n d (s + 1)).natAbs < 2 ^ 96 then some ⟨mantAt n d (s + 1), s + 1⟩
    else reduceFit n d s

/-- First scale `s` in `[start, start+fuel)` at which `n * 10^s / d` is an
integer, i.e. the minimal number of fractional digits representing `n / d`
exactly. -/
def exactScaleAux (n : Int) (d : Nat) : Nat → Nat → Option Nat
  | _, 0 => none
  | s, fuel + 1 =>
    if (n * 10 ^ s) % (d : Int) = 0 then some s else exactScaleAux n d (s + 1) fuel

/-- Fit the exact rational result `n / d` (`d > 0`) into the decimal
representation: use the minimal exact scale when one exists within 28 digits
(else start at 28), then reduce the scale, rounding, while the mantissa
overflows.  `none` is overflow (`None` of a checked operation, or the panic of
an unchecked one). -/
def fitFrac (n : Int) (d : Nat) : Option Dec :=
  match exactScaleAux n d 0 29 with
  | some s => reduceFit n d s
  | none => reduceFit n d 28

namespace Dec

/-- `Decimal` multiplication.  `checked_mul` maps `none` to `None`; the plain
`*` operator maps `none` to a panic. -/
def mul (a b : Dec) : Option Dec :=
  fitFrac (a.num * b.num) (10 ^ (a.scale + b.scale))

/-- `Decimal` subtraction (the plain `-` operator; `none` is a panic). -/
def sub (a b : Dec) : Option Dec :=
  fitFrac (a.num * 10 ^ b.scale - b.num * 10 ^ a.scale) (10 ^ (a.scale + b.scale))

/-- `Decimal` division.  `checked_div` maps `none` to `None` (both for a zero
divisor and for overflow); the plain `/` operator maps `none` to a panic. -/
def div (a b : Dec) : Option Dec :=
  if b.num = 0 then none
  else if b.num < 0 then fitFrac (-(a.num * 10 ^ b.scale)) (b.num.natAbs * 10 ^ a.scale)
  else fitFrac (a.num * 10 ^ b.scale) (b.num.natAbs * 10 ^ a.scale)

/-- `Decimal::to_u128` (via `ToPrimitive`): truncates toward zero; `None` on
negative values and on values exceeding `u128::MAX`. -/
def toU128 (d : Dec) : Option Nat :=
  if d.num < 0 then none
  else
    let t := (d.num.ediv (10 ^ d.scale)).toNat
    if t < 2 ^ 128 then some t else none

/-- `Decimal::normalize`: strip trailing fractional zeros. -/
def stripZeros : Int → Nat → Dec
  | n, 0 => ⟨n, 0⟩
  | n, s + 1 => if n % 10 = 0 then stripZeros (n / 10) s else ⟨n, s + 1⟩

/-- `Decimal::normalize`. -/
def normalize (d : Dec) : Dec := stripZeros d.num d.scale

/-- Left-pad a natural number's decimal digits with zeros to `len` digits. -/
def natReprPad (n len : Nat) : String :=
  let r := Nat.repr n
  String.mk (List.replicate (len - r.length) '0') ++ r

/-- `Display for Decimal`: sign, integer part, then `scale` fractional
digits. -/
def display (d : Dec) : String :=
  (if d.num < 0 then "-" else "") ++
    (let m := d.num.natAbs
     if d.scale = 0 then Nat.repr m
     else Nat.repr (m / 10 ^ d.scale) ++ "." ++ natReprPad (m % 10 ^ d.scale) d.scale)

end Dec

/-- Embedding of `EthereumError` (`src/error.rs`). -/
inductive EthError where
  | invalidAddress (msg : String)
  | invalidAmount (msg : String)
  | rpcError (msg : String)
  | invalidERC20 (msg : String)
  | tokenNotFound (msg : String)
  | priceOracleError (msg : String)
  | swapSimulationFailed (msg : String)
  | gasEstimationFailed (msg : String)
  | configError (msg : String)
  | precisionError (msg : String)
  | invalidTokenPair (msg : String)
  | networkError (msg : String)
  | unknown (msg : String)
  deriving DecidableEq, Repr

/-- `Display for EthereumError` (the `#[error(...)]` format strings of
`src/error.rs`). -/
def EthError.display : EthError → String
  | .invalidAddress m => "Invalid address: " ++ m
  | .invalidAmount m => "Invalid amount: " ++ m
  | .rpcError m => "RPC error: " ++ m
  | .invalidERC20 m => "Invalid ERC20 contract: " ++ m
  | .tokenNotFound m => "Token not found: " ++ m
  | .priceOracleError m => "Price oracle error: " ++ m
  | .swapSimulationFailed m => "Swap simulation failed: " ++ m
  | .gasEstimationFailed m => "Gas estimation failed: " ++ m
  | .configError m => "Configuration error: " ++ m
  | .precisionError m => "Precision conversion error: " ++ m
  | .invalidTokenPair m => "Invalid token pair: " ++ m
  | .networkError m => "Network error: " ++ m
  | .unknown m => "Unknown error: " ++ m

/-- `Decimal::from_str` applied to the decimal string of a `U256`
(`src/precision.rs`, `to_decimal`): an integer string parses exactly iff its
value fits the 96-bit mantissa; larger values overflow with a parse error. -/
def parseU256String (raw : Nat) : Except String Dec :=
  if raw < 2 ^ 96 then .ok ⟨(raw : Int), 0⟩
  else .error "Invalid decimal: overflow from too many digits"

/-- The `10^decimals` multiplier/divisor loop of `to_decimal`/`from_decimal`
(`src/precision.rs` lines 18-21 and 44-47): repeated unchecked `Decimal`
multiplication by 10, which panics (`none`) on overflow (at `decimals ≥ 29`). -/
def powTenDec : Nat → Option Dec
  | 0 => some (Dec.ofNat 1)
  | n + 1 => (powTenDec n).bind fun acc => acc.mul (Dec.ofNat 10)

/-- `to_decimal` (`src/precision.rs` lines 17-30). -/
def to_decimal (raw_amount : Nat) (decimals : Nat) : Option (Except EthError Dec) :=
  match powTenDec decimals with
  | none => none
  | some divisor =>
    some
      (match parseU256String raw_amount with
       | .error e => .error (.precisionError ("Failed to parse amount: " ++ e))
       | .ok amount_decimal =>
         match amount_decimal.div divisor with
         | none => .error (.precisionError "Division overflow")
         | some q => .ok q)

/-- `from_decimal` (`src/precision.rs` lines 43-59).  The result value is a
`U256`, embedded as `Nat`. -/
def from_decimal (decimal_amount : Dec) (decimals : Nat) : Option (Except EthError Nat) :=
  match powTenDec decimals with
  | none => none
  | some multiplier =>
    some
      (match decimal_amount.mul multiplier with
       | none => .error (.precisionError "Multiplication overflow")
       | some raw_decimal =>
         match raw_decimal.toU128 with
         | none => .error (.precisionError "Amount too large")
         | some raw_u128 => .ok raw_u128)

/-- `calculate_min_output_with_slippage` (`src/precision.rs` lines 72-87). -/
def calculate_min_output_with_slippage (expected_output slippage_percentage : Dec) :
    Option (Except EthError Dec) :=
  if slippage_percentage.lt ⟨0, 0⟩ ∨ (Dec.ofNat 100).lt slippage_percentage then
    some (.error (.precisionError "Slippage must be between 0 and 100"))
  else
    match slippage_percentage.div (Dec.ofNat 100) with
    | none => none
    | some q =>
      match (Dec.ofNat 1).sub q with
      | none => none
      | some slippage_multiplier =>
        some
          (match expected_output.mul slippage_multiplier with
           | none => .error (.precisionError "Multiplication overflow")
           | some r => .ok r)

/-- Executable round-trip check for the `to_decimal`/`from_decimal` pair:
`true` iff the pipeline returns the original raw amount. -/
def roundTripOk (raw decimals : Nat) : Bool :=
  match to_decimal raw decimals with
  | some (.ok dec) =>
    match from_decimal dec decimals with
    | some (.ok r) => r == raw
    | _ => false
  | _ => false

/-! ### String parsing of decimals (`str::parse::<Decimal>`) -/

/-- Parser state for `Decimal::from_str`: accumulated mantissa, number of
fractional digits so far, whether a decimal point was seen, and the number of
digits consumed. -/
structure DecParseSt where
  mant : Nat
  scale : Nat
  seenDot : Bool
  digits : Nat

/-- Character loop of `Decimal::from_str`: digits, underscores (separators)
and at most one decimal point; anything else is a parse error. -/
def parseDecCore : List Char → DecParseSt → Option DecParseSt
  | [], st => some st
  | c :: cs, st =>
    if c = '_' then parseDecCore cs st
    else if c = '.' then
      if st.seenDot then none else parseDecCore cs ⟨st.mant, st.scale, true, st.digits⟩
    else if c.isDigit then
      parseDecCore cs
        ⟨st.mant * 10 + (c.toNat - 48), if st.seenDot then st.scale + 1 else st.scale,
          st.seenDot, st.digits + 1⟩
    else none

/-- `str::parse::<Decimal>` (`Decimal::from_str`): optional sign, digits with
at most one decimal point; more than 28 fractional digits are rounded away;
a mantissa beyond 96 bits is a parse error.  (Scientific notation is not
accepted by `from_str`.) -/
def parseDecimal (s : String) : Option Dec :=
  match s.toList with
  | [] => none
  | c :: cs =>
    let sign : Bool × List Char :=
      if c = '-' then (true, cs) else if c = '+' then (false, cs) else (false, c :: cs)
    match parseDecCore sign.2 ⟨0, 0, false, 0⟩ with
    | none => none
    | some st =>
      if st.digits = 0 then none
      else
        let ms : Nat × Nat :=
          if 28 < st.scale then (roundHalfNat st.mant (10 ^ (st.scale - 28)), 28)
          else (st.mant, st.scale)
        if ms.1 < 2 ^ 96 then
          some ⟨if sign.1 then -(ms.1 : Int) else (ms.1 : Int), ms.2⟩
        else none

/-! ### Addresses and the token registry (`src/tokens.rs`) -/

/-- `str::to_uppercase` (every identifier the source uppercases and compares
is ASCII, so ASCII uppercasing is faithful here). -/
def strUpper (s : String) : String := String.mk (s.toList.map Char.toUpper)

/-- Hexadecimal digit test. -/
def isHexDigitChar (c : Char) : Bool :=
  c.isDigit || (97 ≤ c.toNat && c.toNat ≤ 102) || (65 ≤ c.toNat && c.toNat ≤ 70)

/-- An Ethereum address in canonical form: its 40 hex digits, uppercased,
without the `0x` prefix.  (`alloy` renders addresses EIP-55-checksummed; every
comparison the source makes is case-insensitive or on parsed bytes, so the
canonical form is behaviourally equivalent.) -/
abbrev Address := String

/-- `str::parse::<Address>`: an optional `0x` prefix followed by exactly 40
hex digits (checksums are not validated by `FromStr`).  The embedding accepts
the uppercased `0X` prefix as well; no claim below distinguishes the two. -/
def parseAddress (s : String) : Option Address :=
  let cs := s.toList
  let body := if cs.take 2 = ['0', 'x'] ∨ cs.take 2 = ['0', 'X'] then cs.drop 2 else cs
  if body.length = 40 ∧ body.all isHexDigitChar then
    some (String.mk (body.map Char.toUpper))
  else none

/-- The ETH pseudo-address `0xEeeeeEeeeEeEeeEeEeEeeEEEeeeeEeeeeeeeEEeE`,
canonicalized. -/
def ETH_ADDR : Address := "EEEEEEEEEEEEEEEEEEEEEEEEEEEEEEEEEEEEEEEE"

/-- WETH mainnet address, canonicalized. -/
def WETH_ADDR : Address := "C02AAA39B223FE8D0A0E5C4F27EAD9083C756CC2"

/-- USDC mainnet address, canonicalized. -/
def USDC_ADDR : Address := "A0B86991C6218B36C1D19D4A2E9EB0CE3606EB48"

/-- `Address::ZERO`. -/
def zeroAddress : Address := "0000000000000000000000000000000000000000"

/-- The token table built by `TokenRegistry::new` (`src/tokens.rs`). -/
def tokenRegistry : List (String × Address) :=
  [("ETH", ETH_ADDR),
   ("WETH", WETH_ADDR),
   ("USDC", USDC_ADDR),
   ("USDT", "DAC17F958D2EE523A2206206994597C13D831EC7"),
   ("DAI", "6B175474E89094C44DA98B954EEDEAC495271D0F"),
   ("LINK", "514910771AF9CA656AF840DFF83E8264ECF986CA"),
   ("UNI", "1F9840A85D5AF5BF1D1762F925BDADDC4201F984"),
   ("AAVE", "7FC66500C84A76AD7E9C93437E434122A1F9ACDD"),
   ("FRAX", "853D955ACEF822DB058EB8505911ED77F175B999")]

/-- `TokenRegistry::symbol_to_address`: case-insensitive symbol lookup. -/
def symbol_to_address (symbol : String) : Option Address :=
  tokenRegistry.lookup (strUpper symbol)

/-- `TokenRegistry::address_to_symbol`. -/
def address_to_symbol (address : Address) : Option String :=
  (tokenRegistry.find? (fun p => p.2 == address)).map (fun p => p.1)

/-! ### Swap simulation (`src/tools/swap.rs`) -/

/-- `ETH_IDENTIFIER.to_uppercase()` as compared against by `is_eth`. -/
def ethIdUpper : String := "0XEEEEEEEEEEEEEEEEEEEEEEEEEEEEEEEEEEEEEEEE"

/-- `SwapTool::resolve_token` (`src/tools/swap.rs` lines 54-66): uppercase the
identifier, try to parse it as an address, then fall back to a registry
symbol lookup. -/
def resolve_token (identifier : String) : Except EthError Address :=
  let identifierUpper := strUpper identifier
  match parseAddress identifierUpper with
  | some addr => .ok addr
  | none =>
    match symbol_to_address identifierUpper with
    | some addr => .ok addr
    | none => .error (.invalidTokenPair ("无法解析代币: " ++ identifier))

/-- `SwapTool::is_eth`. -/
def is_eth (identifier : String) : Bool :=
  strUpper identifier == "ETH" || strUpper identifier == ethIdUpper

/-- `SwapTool::eth_to_weth`: map the ETH pseudo-address to the WETH contract
for routing. -/
def eth_to_weth (token_addr : Address) : Except EthError Address :=
  if token_addr == ETH_ADDR then
    match parseAddress "0xC02aaA39b223FE8D0A0e5C4F27eAD9083C756Cc2" with
    | some a => .ok a
    | none => .error (.configError "无效的 WETH 地址")
  else .ok token_addr

/-- `SwapRequest` (`src/tools/swap.rs`). -/
structure SwapRequest where
  from_token : String
  to_token : String
  amount : String
  slippage : Dec
  wallet_address : String
  deriving DecidableEq, Repr

/-- `SwapResponse` (`src/tools/swap.rs`). -/
structure SwapResponse where
  from_token : String
  to_token : String
  input_amount : String
  estimated_output : String
  min_output : String
  gas_cost_eth : String
  slippage_percentage : String
  simulation_success : Bool
  error : Option String
  deriving DecidableEq, Repr

/-- `BalanceResponse` (`src/tools/balance.rs`); `simulate_swap` reads only its
`balance` string. -/
structure BalanceResponse where
  address : String
  balance : String
  decimals : Nat
  raw : String
  token_type : String
  token_address : String
  deriving DecidableEq, Repr

/-- Outcomes of the chain-gateway calls one `simulate_swap` run makes.
`nowSecs` models `SystemTime::now` (it only feeds the router deadline, whose
outcome is already summarized by `simulateGas`). -/
structure SwapEnv where
  balanceToolAvailable : Bool
  balanceResult : Except EthError BalanceResponse
  fromTokenDecimals : Except EthError Nat
  toTokenDecimals : Except EthError Nat
  amountsOut : Except EthError (List Nat)
  gasPrice : Except EthError Nat
  simulateGas : Except EthError Nat
  nowSecs : Nat

/-- The failed-quote `SwapResponse` literal repeated through `simulate_swap`:
only the `estimated_output` field and the error message vary between the
failure returns. -/
def mkFailResponse (request : SwapRequest) (estimated msg : String) : SwapResponse :=
  ⟨request.from_token, request.to_token, request.amount, estimated, "0", "0",
    Dec.display request.slippage, false, some msg⟩

/-- `simulate_swap` from the token-decimals stage onward
(`src/tools/swap.rs` lines 168-369). -/
def swapStage2 (env : SwapEnv) (request : SwapRequest)
    (_from_token _to_token : Address) (from_is_eth to_is_eth : Bool)
    (_wallet_address : Address) (input_amount_decimal : Dec) :
    Option (Except EthError SwapResponse) :=
  match (if from_is_eth then Except.ok 18 else env.fromTokenDecimals) with
  | .error e => some (.ok (mkFailResponse request "0" ("无法获取源代币信息: " ++ e.display)))
  | .ok from_decimals =>
  match (if to_is_eth then Except.ok 18 else env.toTokenDecimals) with
  | .error e => some (.ok (mkFailResponse request "0" ("无法获取目标代币信息: " ++ e.display)))
  | .ok to_decimals =>
  match from_decimal input_amount_decimal from_decimals with
  | none => none
  | some (.error e) => some (.ok (mkFailResponse request "0" ("金额转换失败: " ++ e.display)))
  | some (.ok _amount_in_u256) =>
  match env.amountsOut with
  | .error e => some (.ok (mkFailResponse request "0" ("无法从 Uniswap 获取价格: " ++ e.display)))
  | .ok amounts_out =>
  if amounts_out.isEmpty then
    some (.ok (mkFailResponse request "0" "Uniswap 返回空的输出金额"))
  else
  match to_decimal (amounts_out.getLastD 0) to_decimals with
  | none => none
  | some (.error e) => some (.ok (mkFailResponse request "0" ("输出金额转换失败: " ++ e.display)))
  | some (.ok estimated_output) =>
  match calculate_min_output_with_slippage estimated_output request.slippage with
  | none => none
  | some (.error e) =>
    some (.ok (mkFailResponse request (Dec.display estimated_output.normalize)
      ("滑点计算失败: " ++ e.display)))
  | some (.ok min_output) =>
  match from_decimal min_output to_decimals with
  | none => none
  | some _min_output_res =>
  match to_decimal
      ((match env.simulateGas with | .ok g => g | .error _ => 150000) *
        (match env.gasPrice with | .ok g => g | .error _ => 20000000000)) 18 with
  | none => none
  | some gas_cost_res =>
  some (.ok ⟨request.from_token, request.to_token, request.amount,
    Dec.display estimated_output.normalize, Dec.display min_output.normalize,
    Dec.display (match gas_cost_res with
      | .ok c => c
      | .error _ => (⟨0, 0⟩ : Dec)).normalize,
    Dec.display request.slippage, true, none⟩)

/-- `SwapTool::simulate_swap` (`src/tools/swap.rs` lines 86-369).  Token
resolution and wallet parsing propagate errors with `?`; from the amount check
onward failures become `Ok` responses with `simulation_success = false`. -/
def simulate_swap (env : SwapEnv) (request : SwapRequest) :
    Option (Except EthError SwapResponse) :=
  match resolve_token request.from_token with
  | .error e => some (.error e)
  | .ok from_token_raw =>
  match resolve_token request.to_token with
  | .error e => some (.error e)
  | .ok to_token_raw =>
  match eth_to_weth from_token_raw with
  | .error e => some (.error e)
  | .ok from_token =>
  match eth_to_weth to_token_raw with
  | .error e => some (.error e)
  | .ok to_token =>
  match parseAddress request.wallet_address with
  | none => some (.error (.invalidAddress "无效的钱包地址"))
  | some wallet_address =>
  match parseDecimal request.amount with
  | none => some (.ok (mkFailResponse request "0" "无效的金额格式"))
  | some input_amount_decimal =>
  match (if env.balanceToolAvailable then env.balanceResult
         else Except.error (EthError.unknown "余额工具不可用")) with
  | .ok balance =>
    if ((parseDecimal balance.balance).getD ⟨0, 0⟩).lt input_amount_decimal then
      some (.ok (mkFailResponse request "0"
        ("余额不足: " ++ Dec.display ((parseDecimal balance.balance).getD ⟨0, 0⟩) ++
          " 可用, " ++ Dec.display input_amount_decimal ++ " 需要")))
    else
      swapStage2 env request from_token to_token (is_eth request.from_token)
        (is_eth request.to_token) wallet_address input_amount_decimal
  | .error _ =>
    swapStage2 env request from_token to_token (is_eth request.from_token)
      (is_eth request.to_token) wallet_address input_amount_decimal

/-! ### Price oracle (`src/tools/price.rs`) -/

/-- Outcomes of the chain calls one `get_price_from_uniswap_pool` run makes:
provider construction, `factory.getPair`, `pair.getReserves`, `pair.token0`,
and the two `decimals()` queries. -/
structure PoolEnv where
  providerOk : Bool
  getPairResult : Except String Address
  getReservesResult : Except String (Nat × Nat)
  token0Result : Except String Address
  tokenDecimalsResult : Except EthError Nat
  quoteDecimalsResult : Except EthError Nat

/-- `PriceTool::get_price_from_uniswap_pool` (`src/tools/price.rs` lines
66-150): factory pair lookup with a zero-address sentinel check, reserve
orientation by `token0`, zero-reserve checks, and the constant-product price
`(reserve_quote / 10^quote_decimals) / (reserve_token / 10^token_decimals)`. -/
def get_price_from_uniswap_pool (env : PoolEnv) (token_address _quote_token : Address) :
    Option (Except EthError Dec) :=
  match parseAddress "0x5C69bEe701ef814a2B6a3EDD4B1652CB9cc5aA6f" with
  | none => some (.error (.configError "无效的工厂地址"))
  | some _factory_address =>
  if !env.providerOk then some (.error (.configError "无效的 RPC URL")) else
  match env.getPairResult with
  | .error e => some (.error (.priceOracleError ("无法获取交易对: " ++ e)))
  | .ok pair_address =>
  if pair_address == zeroAddress then some (.error (.priceOracleError "交易对不存在")) else
  match env.getReservesResult with
  | .error e => some (.error (.priceOracleError ("无法获取储备量: " ++ e)))
  | .ok reserves =>
  match env.token0Result with
  | .error e => some (.error (.priceOracleError ("无法获取 token0: " ++ e)))
  | .ok token0 =>
  if (if token0 == token_address then reserves.2 else reserves.1) == 0 then
    some (.error (.priceOracleError "报价代币储备为零"))
  else
  match env.tokenDecimalsResult with
  | .error e => some (.error e)
  | .ok token_decimals =>
  match env.quoteDecimalsResult with
  | .error e => some (.error e)
  | .ok quote_decimals =>
  match to_decimal (if token0 == token_address then reserves.1 else reserves.2)
      token_decimals with
  | none => none
  | some (.error e) => some (.error e)
  | some (.ok reserve_token_decimal) =>
  match to_decimal (if token0 == token_address then reserves.2 else reserves.1)
      quote_decimals with
  | none => none
  | some (.error e) => some (.error e)
  | some (.ok reserve_quote_decimal) =>
  if reserve_token_decimal.isZero then some (.error (.priceOracleError "代币储备为零"))
  else
    match reserve_quote_decimal.div reserve_token_decimal with
    | none => none
    | some price => some (.ok price)

/-- `PriceRequest` (`src/tools/price.rs`). -/
structure PriceRequest where
  token_identifier : String
  quote_currency : Option String
  deriving DecidableEq, Repr

/-- `PriceResponse` (`src/tools/price.rs`). -/
structure PriceResponse where
  quote_currency : String
  price : String
  timestamp : Nat
  deriving DecidableEq, Repr

/-- Outcomes of the chain calls one `get_price` run makes: the token-symbol
query, one pool environment per hop, and the clock. -/
structure PriceEnv where
  symbolResult : Except String String
  hop1 : PoolEnv
  hop2 : PoolEnv
  nowSecs : Nat

/-- The token-resolution step of `PriceTool::get_price` (`src/tools/price.rs`
lines 171-179): parse as an address, else look the symbol up in the registry,
else `TokenNotFound`. -/
def resolvePriceToken (token_identifier : String) : Except EthError Address :=
  match parseAddress token_identifier with
  | some a => Except.ok a
  | none =>
    match symbol_to_address token_identifier with
    | some a => Except.ok a
    | none => Except.error (EthError.tokenNotFound ("代币不存在: " ++ token_identifier))

/-- `PriceTool::get_price` (`src/tools/price.rs` lines 153-238): quote
validation (USD/ETH only), token resolution, then either the direct WETH
quote or the two-hop USD composition `price_in_eth * eth_usdc_price`. -/
def get_price (env : PriceEnv) (request : PriceRequest) :
    Option (Except EthError PriceResponse) :=
  let token_identifier := strUpper request.token_identifier
  let quote_currency := strUpper (request.quote_currency.getD "USD")
  if quote_currency ≠ "USD" ∧ quote_currency ≠ "ETH" then
    some (.error (.priceOracleError ("不支持的报价货币: " ++ quote_currency)))
  else
  match resolvePriceToken token_identifier with
  | .error e => some (.error e)
  | .ok token_address =>
  let _symbol :=
    match env.symbolResult with
    | .ok s => s
    | .error _ => (address_to_symbol token_address).getD "UNKNOWN"
  if quote_currency == "ETH" then
    match parseAddress "0xC02aaA39b223FE8D0A0e5C4F27eAD9083C756Cc2" with
    | none => some (.error (.configError "无效的 WETH 地址"))
    | some weth_address =>
    if token_address == weth_address then
      some (.ok ⟨quote_currency, Dec.display (Dec.ofNat 1).normalize, env.nowSecs⟩)
    else
      match get_price_from_uniswap_pool env.hop1 token_address weth_address with
      | none => none
      | some (.error e) => some (.error e)
      | some (.ok price) =>
        some (.ok ⟨quote_currency, Dec.display price.normalize, env.nowSecs⟩)
  else
    match parseAddress "0xC02aaA39b223FE8D0A0e5C4F27eAD9083C756Cc2" with
    | none => some (.error (.configError "无效的 WETH 地址"))
    | some weth_address =>
    match parseAddress "0xA0b86991c6218b36c1d19D4a2e9Eb0cE3606eB48" with
    | none => some (.error (.configError "无效的 USDC 地址"))
    | some usdc_address =>
    match (if token_address == weth_address then some (Except.ok (Dec.ofNat 1))
           else get_price_from_uniswap_pool env.hop1 token_address weth_address) with
    | none => none
    | some (.error e) => some (.error e)
    | some (.ok price_in_eth) =>
    match get_price_from_uniswap_pool env.hop2 weth_address usdc_address with
    | none => none
    | some (.error e) => some (.error e)
    | some (.ok eth_usdc_price) =>
    match price_in_eth.mul eth_usdc_price with
    | none => none
    | some price =>
      some (.ok ⟨quote_currency, Dec.display price.normalize, env.nowSecs⟩)

/-! ### JSON-RPC dispatcher (`src/server/mcp.rs`) -/

/-- Minimal JSON value model (`serde_json::Value`); numbers are restricted to
the integers the dispatcher actually handles. -/
inductive Json where
  | null
  | bool (b : Bool)
  | num (n : Int)
  | str (s : String)
  | arr (xs : List Json)
  | obj (fields : List (String × Json))

/-- `Value::get` on an object key (`None` on non-objects). -/
def Json.getField : Json → String → Option Json
  | .obj fields, key => fields.lookup key
  | _, _ => none

/-- `Value::as_str`. -/
def Json.asStr : Json → Option String
  | .str s => some s
  | _ => none

/-- `ToolDefinition` (`src/server/mcp.rs`). -/
structure ToolDefinition where
  name : String
  description : String
  input_schema : Json

/-- `McpServer::get_tool_definitions` (`src/server/mcp.rs` lines 88-154). -/
def get_tool_definitions : List ToolDefinition :=
  [⟨"get_balance", "Get ETH or ERC20 token balance for a wallet address",
    .obj [("type", .str "object"),
          ("properties",
            .obj [("address",
                    .obj [("type", .str "string"),
                          ("description", .str "Ethereum wallet address (0x...)")]),
                  ("token_address",
                    .obj [("type", .str "string"),
                          ("description",
                            .str "ERC20 contract address (optional, omit for ETH balance)")])]),
          ("required", .arr [.str "address"])]⟩,
   ⟨"get_token_price", "Get current price of a token in USD and ETH",
    .obj [("type", .str "object"),
          ("properties",
            .obj [("token_identifier",
                    .obj [("type", .str "string"),
                          ("description",
                            .str "Token symbol (e.g., ETH, USDC) or contract address")])]),
          ("required", .arr [.str "token_identifier"])]⟩,
   ⟨"swap_tokens", "Simulate a token swap on Uniswap (no actual transaction executed)",
    .obj [("type", .str "object"),
          ("properties",
            .obj [("from_token",
                    .obj [("type", .str "string"),
                          ("description", .str "Source token symbol or address")]),
                  ("to_token",
                    .obj [("type", .str "string"),
                          ("description", .str "Destination token symbol or address")]),
                  ("amount",
                    .obj [("type", .str "string"),
                          ("description", .str "Amount to swap (in human-readable format)")]),
                  ("slippage",
                    .obj [("type", .str "number"),
                          ("description",
                            .str "Slippage tolerance in percentage (e.g., 0.5 for 0.5%)")]),
                  ("wallet_address",
                    .obj [("type", .str "string"),
                          ("description", .str "Wallet address initiating the swap")])]),
          ("required",
            .arr [.str "from_token", .str "to_token", .str "amount", .str "slippage",
                  .str "wallet_address"])]⟩]

/-- `JsonRpcError` (`src/server/mcp.rs`). -/
structure JsonRpcError where
  code : Int
  message : String
  data : Option Json

/-- `JsonRpcRequest` (`src/server/mcp.rs`). -/
structure JsonRpcRequest where
  jsonrpc : String
  method : String
  params : Json
  id : Json

/-- `JsonRpcResponse` (`src/server/mcp.rs`). -/
structure JsonRpcResponse where
  jsonrpc : String
  result : Option Json
  error : Option JsonRpcError
  id : Json

/-- The bodies of the three known-tool branches of `handle_tool_call`
(argument deserialization, tool-initialization check, tool invocation and
result serialization) abstracted at the tool boundary: each is a free
function from the `arguments` value to the branch outcome. -/
structure DispatchEnv where
  balanceOutcome : Json → Except JsonRpcError Json
  priceOutcome : Json → Except JsonRpcError Json
  swapOutcome : Json → Except JsonRpcError Json

/-- Serialization of a `ToolDefinition` (`serde_json::to_value`). -/
def toolDefinitionToJson (t : ToolDefinition) : Json :=
  .obj [("name", .str t.name), ("description", .str t.description),
        ("input_schema", t.input_schema)]

/-- `McpServer::handle_tools_list` (serialization of the fixed tool list
cannot fail). -/
def handle_tools_list : Except JsonRpcError Json :=
  .ok (.arr (get_tool_definitions.map toolDefinitionToJson))

/-- `McpServer::handle_tool_call` (`src/server/mcp.rs` lines 199-295):
extract `name` (else `-32602`), extract `arguments` (else `-32602`), then
dispatch on the tool name, with `-32601` for unknown tools. -/
def handle_tool_call (env : DispatchEnv) (params : Json) : Except JsonRpcError Json :=
  match (params.getField "name").bind Json.asStr with
  | none => .error ⟨-32602, "Missing or invalid \x27name\x27 parameter", none⟩
  | some tool_name =>
    match params.getField "arguments" with
    | none => .error ⟨-32602, "Missing \x27arguments\x27 parameter", none⟩
    | some arguments =>
      match tool_name with
      | "get_balance" => env.balanceOutcome arguments
      | "get_token_price" => env.priceOutcome arguments
      | "swap_tokens" => env.swapOutcome arguments
      | _ => .error ⟨-32601, "Tool not found: " ++ tool_name, none⟩

/-- `McpServer::handle_request` (`src/server/mcp.rs` lines 157-188). -/
def handle_request (env : DispatchEnv) (request : JsonRpcRequest) : JsonRpcResponse :=
  match (match request.method with
         | "tools/list" => handle_tools_list
         | "tools/call" => handle_tool_call env request.params
         | "ping" => Except.ok (Json.obj [("status", .str "ok")])
         | _ =>
           Except.error (⟨-32601, "Method not found: " ++ request.method, none⟩ : JsonRpcError)) with
  | .ok result => ⟨"2.0", some result, none, request.id⟩
  | .error err => ⟨"2.0", none, some err, request.id⟩

/-! ### Arithmetic lemmas about the decimal representation -/

theorem roundHalfNat_exact {a b c : Nat} (hb : 0 < b) (h : a = b * c) :
    roundHalfNat a b = c := by
  subst h
  unfold roundHalfNat
  have h1 : 2 * (b * c) + b = b * (2 * c + 1) := by ring
  rw [h1, Nat.mul_comm 2 b, Nat.mul_div_mul_left _ _ hb]
  omega

theorem roundHalfNat_ge_one {a b : Nat} (hb : 0 < b) (h : b ≤ a) :
    1 ≤ roundHalfNat a b := by
  unfold roundHalfNat
  rw [Nat.le_div_iff_mul_le (by omega)]
  omega

theorem le_roundHalfNat_mul {a b c : Nat} (h : c ≤ roundHalfNat a b) :
    c * (2 * b) ≤ 2 * a + b := by
  unfold roundHalfNat at h
  calc c * (2 * b) ≤ (2 * a + b) / (2 * b) * (2 * b) := Nat.mul_le_mul_right _ h
    _ ≤ 2 * a + b := Nat.div_mul_le_self _ _

theorem mantAt_exact {n : Int} {d : Nat} (hd : 0 < d) {s : Nat} {c : Int}
    (h : n * 10 ^ s = (d : Int) * c) : mantAt n d s = c := by
  unfold mantAt roundFracAway
  have hd' : (0 : Int) < (d : Int) := by exact_mod_cast hd
  by_cases hneg : n * 10 ^ s < 0
  · have hc : c < 0 := by
      by_contra hc
      push_neg at hc
      nlinarith
    have habs : (n * 10 ^ s).natAbs = d * c.natAbs := by
      have : (n * 10 ^ s).natAbs = ((d : Int) * c).natAbs := by rw [h]
      rw [this, Int.natAbs_mul, Int.natAbs_ofNat]
    rw [if_pos hneg, roundHalfNat_exact hd habs]
    omega
  · push_neg at hneg
    have hc : 0 ≤ c := by nlinarith
    have habs : (n * 10 ^ s).natAbs = d * c.natAbs := by
      have : (n * 10 ^ s).natAbs = ((d : Int) * c).natAbs := by rw [h]
      rw [this, Int.natAbs_mul, Int.natAbs_ofNat]
    rw [if_neg (by omega), roundHalfNat_exact hd habs]
    omega

theorem reduceFit_spec {n : Int} {d : Nat} :
    ∀ s dec, reduceFit n d s = some dec →
      dec.num = mantAt n d dec.scale ∧ dec.num.natAbs < 2 ^ 96 ∧ dec.scale ≤ s ∧
        (dec.scale = s ∨ 2 ^ 96 ≤ (mantAt n d (dec.scale + 1)).natAbs) := by
  intro s
  induction s with
  | zero =>
    intro dec h
    unfold reduceFit at h
    by_cases hfit : (mantAt n d 0).natAbs < 2 ^ 96
    · rw [if_pos hfit] at h
      cases h
      exact ⟨rfl, hfit, Nat.le_refl _, Or.inl rfl⟩
    · rw [if_neg hfit] at h
      cases h
  | succ s ih =>
    intro dec h
    unfold reduceFit at h
    by_cases hfit : (mantAt n d (s + 1)).natAbs < 2 ^ 96
    · rw [if_pos hfit] at h
      cases h
      exact ⟨rfl, hfit, Nat.le_refl _, Or.inl rfl⟩
    · rw [if_neg hfit] at h
      obtain ⟨h1, h2, h3, h4⟩ := ih dec h
      refine ⟨h1, h2, Nat.le_succ_of_le h3, ?_⟩
      rcases h4 with h4 | h4
      · right; rw [h4]; omega
      · right; exact h4

theorem reduceFit_fit {n : Int} {d : Nat} {s : Nat}
    (h : (mantAt n d s).natAbs < 2 ^ 96) :
    reduceFit n d s = some ⟨mantAt n d s, s⟩ := by
  cases s with
  | zero => unfold reduceFit; rw [if_pos h]
  | succ s => unfold reduceFit; rw [if_pos h]

theorem exactScaleAux_spec {n : Int} {d : Nat} :
    ∀ fuel s s0, exactScaleAux n d s fuel = some s0 →
      (n * 10 ^ s0) % (d : Int) = 0 ∧ s ≤ s0 ∧ s0 < s + fuel := by
  intro fuel
  induction fuel with
  | zero => intro s s0 h; simp [exactScaleAux] at h
  | succ fuel ih =>
    intro s s0 h
    unfold exactScaleAux at h
    by_cases hdvd : (n * 10 ^ s) % (d : Int) = 0
    · simp only [hdvd, if_pos] at h
      cases h
      exact ⟨hdvd, Nat.le_refl _, by omega⟩
    · simp only [hdvd, if_neg, if_false] at h
      obtain ⟨h1, h2, h3⟩ := ih _ _ h
      exact ⟨h1, by omega, by omega⟩

theorem exactScaleAux_found {n : Int} {d : Nat} :
    ∀ fuel s t, s ≤ t → t < s + fuel → (n * 10 ^ t) % (d : Int) = 0 →
      ∃ s0, exactScaleAux n d s fuel = some s0 ∧ s0 ≤ t ∧
        (n * 10 ^ s0) % (d : Int) = 0 := by
  intro fuel
  induction fuel with
  | zero => intro s t h1 h2; omega
  | succ fuel ih =>
    intro s t h1 h2 hdvd
    unfold exactScaleAux
    by_cases hs : (n * 10 ^ s) % (d : Int) = 0
    · exact ⟨s, by simp [hs], h1, hs⟩
    · have hst : s ≠ t := fun h => hs (h ▸ hdvd)
      obtain ⟨s0, he, hle, hd0⟩ := ih (s + 1) t (by omega) (by omega) hdvd
      exact ⟨s0, by simp [hs, he], hle, hd0⟩

theorem fitFrac_exact {n : Int} {d : Nat} (hd : 0 < d) {s : Nat} (hs : s ≤ 28) {c : Int}
    (hc : n * 10 ^ s = (d : Int) * c) (hfit : c.natAbs < 2 ^ 96) :
    ∃ dec, fitFrac n d = some dec ∧ dec.val = (n : ℚ) / (d : ℚ) ∧ dec.wf := by
  have hdvd : (n * 10 ^ s) % (d : Int) = 0 := by rw [hc]; exact Int.mul_emod_right _ _
  obtain ⟨s0, he, hs0le, hd0⟩ :=
    exactScaleAux_found (n := n) (d := d) 29 0 s (Nat.zero_le _) (by omega) hdvd
  obtain ⟨c0, hc0⟩ : ((d : Int)) ∣ n * 10 ^ s0 := Int.dvd_of_emod_eq_zero hd0
  have hd' : ((d : Int)) ≠ 0 := by exact_mod_cast hd.ne'
  have hcc : c = c0 * 10 ^ (s - s0) := by
    have hpow : (10 : Int) ^ s = 10 ^ s0 * 10 ^ (s - s0) := by
      rw [← pow_add]; congr 1; omega
    have h1 : n * 10 ^ s = (d : Int) * (c0 * 10 ^ (s - s0)) := by
      calc n * 10 ^ s = n * 10 ^ s0 * 10 ^ (s - s0) := by rw [hpow]; ring
        _ = (d : Int) * c0 * 10 ^ (s - s0) := by rw [hc0]
        _ = (d : Int) * (c0 * 10 ^ (s - s0)) := by ring
    exact mul_left_cancel₀ hd' (hc.symm.trans h1)
  have hc0fit : c0.natAbs < 2 ^ 96 := by
    have hle : c0.natAbs ≤ c.natAbs := by
      rw [hcc, Int.natAbs_mul]
      have h10 : 1 ≤ ((10 : Int) ^ (s - s0)).natAbs := by
        rw [Int.natAbs_pow]
        exact Nat.one_le_pow _ _ (by norm_num)
      exact Nat.le_mul_of_pos_right _ (by omega)
    omega
  have hm : mantAt n d s0 = c0 := mantAt_exact hd hc0
  refine ⟨⟨c0, s0⟩, ?_, ?_, hc0fit, by show s0 ≤ 28; omega⟩
  · unfold fitFrac
    rw [he, ← hm]
    exact reduceFit_fit (by rw [hm]; exact hc0fit)
  · show (c0 : ℚ) / (10 : ℚ) ^ s0 = (n : ℚ) / (d : ℚ)
    have hq : (n : ℚ) * 10 ^ s0 = (d : ℚ) * c0 := by exact_mod_cast hc0
    have h10 : ((10 : ℚ) ^ s0) ≠ 0 := by positivity
    have hdq : ((d : ℚ)) ≠ 0 := by exact_mod_cast hd.ne'
    field_simp
    linarith [hq]

theorem fitFrac_exact0 {n : Int} {d : Nat} (hd : 0 < d) {c : Int}
    (hc : n = (d : Int) * c) (hfit : c.natAbs < 2 ^ 96) :
    fitFrac n d = some ⟨c, 0⟩ := by
  have hdvd : (n * 10 ^ 0) % (d : Int) = 0 := by
    rw [pow_zero, mul_one, hc]; exact Int.mul_emod_right _ _
  have he : exactScaleAux n d 0 29 = some 0 := by
    unfold exactScaleAux; rw [if_pos hdvd]
  have hm : mantAt n d 0 = c := mantAt_exact hd (by rw [pow_zero, mul_one]; exact hc)
  unfold fitFrac
  rw [he, ← hm]
  exact reduceFit_fit (by rw [hm]; exact hfit)

theorem fitFrac_neg {n : Int} {d : Nat} (hd : 0 < d) (hn : n < 0)
    (hex : ∃ t, t ≤ 28 ∧ (n * 10 ^ t) % (d : Int) = 0) :
    ∀ dec, fitFrac n d = some dec → dec.num < 0 := by
  obtain ⟨t, ht, hdvd⟩ := hex
  obtain ⟨s0, he, _, hd0⟩ :=
    exactScaleAux_found (n := n) (d := d) 29 0 t (Nat.zero_le _) (by omega) hdvd
  intro dec h
  unfold fitFrac at h
  rw [he] at h
  obtain ⟨h1, _, _, h4⟩ := reduceFit_spec s0 dec h
  have habs : ∀ k : Nat, mantAt n d k = -(roundHalfNat (n.natAbs * 10 ^ k) d : Int) := by
    intro k
    have hnk : n * 10 ^ k < 0 :=
      mul_neg_of_neg_of_pos hn (by positivity)
    unfold mantAt roundFracAway
    rw [if_pos hnk, Int.natAbs_mul, Int.natAbs_pow]
    norm_num
  rcases h4 with hcase | hbig
  · obtain ⟨c0, hc0⟩ := Int.dvd_of_emod_eq_zero hd0
    have hm := mantAt_exact hd hc0
    have hc0neg : c0 < 0 := by
      have h10 : (0 : Int) < 10 ^ s0 := by positivity
      have hd0' : (0 : Int) < (d : Int) := by exact_mod_cast hd
      nlinarith
    rw [h1, hcase, hm]
    exact hc0neg
  · set k := dec.scale with hk
    rw [habs (k + 1)] at hbig
    have hbig' : 2 ^ 96 ≤ roundHalfNat (n.natAbs * 10 ^ (k + 1)) d := by
      have := Int.natAbs_neg ((roundHalfNat (n.natAbs * 10 ^ (k + 1)) d : Int))
      omega
    have h20 := le_roundHalfNat_mul (a := n.natAbs * 10 ^ (k + 1)) (b := d) hbig'
    have hdle : d ≤ n.natAbs * 10 ^ k := by
      have hpow : n.natAbs * 10 ^ (k + 1) = (n.natAbs * 10 ^ k) * 10 := by ring
      rw [hpow] at h20
      nlinarith [h20]
    have hge1 : 1 ≤ roundHalfNat (n.natAbs * 10 ^ k) d := roundHalfNat_ge_one hd hdle
    rw [h1, habs k]
    omega

/-- A rational value is exactly representable as a `rust_decimal` value:
some scale `k ≤ 28` turns it into an integer mantissa below `2^96`. -/
def reprExact (q : ℚ) : Prop :=
  ∃ (k : Nat) (c : Int), k ≤ 28 ∧ q * 10 ^ k = (c : ℚ) ∧ c.natAbs < 2 ^ 96

/-- `fitFrac` exactness packaged through the represented rational value. -/
theorem fitFrac_exact_of_val {n : Int} {d : Nat} (hd : 0 < d)
    (h : reprExact ((n : ℚ) / (d : ℚ))) :
    ∃ dec, fitFrac n d = some dec ∧ dec.val = (n : ℚ) / (d : ℚ) ∧ dec.wf := by
  obtain ⟨k, c, hk, hint, hnum⟩ := h
  have hdq : ((d : ℚ)) ≠ 0 := by
    have h0 : (0 : ℚ) < (d : ℚ) := by exact_mod_cast hd
    exact h0.ne'
  have hcast : n * 10 ^ k = (d : Int) * c := by
    have hq : (n : ℚ) * 10 ^ k = (d : ℚ) * (c : ℚ) := by
      rw [← hint]
      field_simp
    exact_mod_cast hq
  exact fitFrac_exact hd hk hcast hnum

/-! ### Value lemmas for `Dec` -/

theorem Dec.val_ofNat (k : Nat) : (Dec.ofNat k).val = (k : ℚ) := by
  simp [Dec.ofNat, Dec.val]

theorem Dec.val_mk (n : Int) (s : Nat) : (Dec.mk n s).val = (n : ℚ) / 10 ^ s := rfl

theorem Dec.val_neg_iff (d : Dec) : d.val < 0 ↔ d.num < 0 := by
  rw [Dec.val, div_lt_iff₀ (by positivity)]
  constructor
  · intro h
    exact_mod_cast (by linarith : ((d.num : ℚ)) < 0)
  · intro h
    have : ((d.num : ℚ)) < 0 := by exact_mod_cast h
    linarith

theorem Dec.lt_iff_val (a b : Dec) : a.lt b ↔ a.val < b.val := by
  rw [Dec.lt, Dec.val, Dec.val, div_lt_div_iff₀ (by positivity) (by positivity)]
  constructor
  · intro h; exact_mod_cast h
  · intro h; exact_mod_cast h

/-! ### Lemmas about the precision functions -/

theorem pow10_natAbs_lt {k : Nat} (hk : k ≤ 28) : ((10 : Int) ^ k).natAbs < 2 ^ 96 := by
  rw [Int.natAbs_pow]
  have h1 : (10 : Int).natAbs ^ k ≤ 10 ^ 28 :=
    Nat.pow_le_pow_right (by norm_num) hk
  calc (10 : Int).natAbs ^ k ≤ 10 ^ 28 := h1
    _ < 2 ^ 96 := by norm_num

theorem powTenDec_eq : ∀ k : Nat, k ≤ 28 → powTenDec k = some ⟨(10 : Int) ^ k, 0⟩ := by
  intro k
  induction k with
  | zero => intro _; unfold powTenDec Dec.ofNat; norm_num
  | succ k ih =>
    intro hk
    have hrec := ih (by omega)
    show (powTenDec k).bind (fun acc => acc.mul (Dec.ofNat 10)) = _
    rw [hrec]
    show Dec.mul ⟨(10 : Int) ^ k, 0⟩ (Dec.ofNat 10) = _
    unfold Dec.mul Dec.ofNat
    have he : (10 : Int) ^ k * (10 : Nat) = ((10 ^ (0 + 0) : Nat) : Int) * (10 : Int) ^ (k + 1) := by
      push_cast
      ring
    rw [fitFrac_exact0 (by positivity) he (pow10_natAbs_lt hk)]

theorem powTenDec_none : ∀ k : Nat, 29 ≤ k → powTenDec k = none := by
  intro k
  induction k with
  | zero => omega
  | succ k ih =>
    intro hk
    by_cases h29 : 29 ≤ k
    · show (powTenDec k).bind _ = none
      rw [ih h29]
      rfl
    · have hk28 : k = 28 := by omega
      subst hk28
      show (powTenDec 28).bind (fun acc => acc.mul (Dec.ofNat 10)) = none
      rw [powTenDec_eq 28 (by omega)]
      show Dec.mul ⟨(10 : Int) ^ 28, 0⟩ (Dec.ofNat 10) = none
      decide

theorem Dec.div_by_pow10 (n : Int) (d : Nat) :
    Dec.div ⟨n, 0⟩ ⟨(10 : Int) ^ d, 0⟩ = fitFrac n (10 ^ d) := by
  unfold Dec.div
  rw [if_neg (pow_ne_zero d (by norm_num)), if_neg (not_lt.mpr (by positivity))]
  congr 1
  · simp
  · simp [Int.natAbs_pow]

theorem to_decimal_ok {raw d : Nat} (hd : d ≤ 28) (hraw : raw < 2 ^ 96) :
    ∃ dec, to_decimal raw d = some (Except.ok dec) ∧
      dec.val = (raw : ℚ) / 10 ^ d ∧ dec.wf := by
  have hcast : (raw : Int) * 10 ^ d = ((10 ^ d : Nat) : Int) * (raw : Int) := by
    push_cast; ring
  obtain ⟨dec, hfit, hval, hwf⟩ :=
    fitFrac_exact (n := (raw : Int)) (d := 10 ^ d) (by positivity) hd hcast
      (by rwa [Int.natAbs_ofNat])
  refine ⟨dec, ?_, ?_, hwf⟩
  · simp only [to_decimal, powTenDec_eq d hd, parseU256String, if_pos hraw,
      Dec.div_by_pow10, hfit]
  · rw [hval]
    push_cast
    rfl

theorem from_decimal_exact {dec : Dec} {d raw : Nat} (hd : d ≤ 28) (hraw : raw < 2 ^ 96)
    (hval : dec.val = (raw : ℚ) / 10 ^ d) : from_decimal dec d = some (.ok raw) := by
  have key : dec.num * (10 : Int) ^ d = (raw : Int) * 10 ^ dec.scale := by
    unfold Dec.val at hval
    rw [div_eq_div_iff (by positivity) (by positivity)] at hval
    exact_mod_cast hval
  have hmul : Dec.mul dec ⟨(10 : Int) ^ d, 0⟩ = some ⟨(raw : Int), 0⟩ := by
    unfold Dec.mul
    have he : dec.num * (10 : Int) ^ d = ((10 ^ (dec.scale + 0) : Nat) : Int) * (raw : Int) := by
      push_cast
      rw [key]
      ring
    exact fitFrac_exact0 (by positivity) he (by rwa [Int.natAbs_ofNat])
  have hnn : ¬((raw : Int) < 0) := not_lt.mpr (Int.natCast_nonneg raw)
  have h2 : ((raw : Int).ediv (10 ^ 0)).toNat = raw := by simp [Int.ediv]
  have h3 : raw < 2 ^ 128 := lt_trans hraw (by norm_num)
  simp only [from_decimal, powTenDec_eq d hd, hmul, Dec.toU128, hnn, if_false, h2, if_pos h3]

/-! ### Claim C1: `to_decimal` / `from_decimal` round trip -/

/-- C1 (counterexample): the round trip does not hold on the claimed domain.
At `raw = 2^96` (representable in 256 bits, an integer — so trivially without
fractional remainder at precision `decimals = 0`), `to_decimal` fails with a
`PrecisionError` because the value exceeds `Decimal`'s 96-bit mantissa; and at
`decimals = 29` (within the claimed `[0, 30]`), the `10^decimals` loop
overflows `Decimal` (a panic of the unchecked `*`), for every raw amount. -/
theorem c1_roundtrip_counterexample :
    roundTripOk (2 ^ 96) 0 = false ∧ roundTripOk 0 29 = false := by
  decide

/-- C1 (amended): for every `decimals ≤ 28` and every raw amount below
`2^96` (the `Decimal` mantissa bound), `to_decimal` then `from_decimal` with
the same `decimals` returns the original raw value exactly.  (On this domain
`raw / 10^decimals` is always exactly representable, so no fractional-remainder
proviso is needed.) -/
theorem c1_roundtrip_amended :
    ∀ raw decimals : Nat, decimals ≤ 28 → raw < 2 ^ 96 →
      roundTripOk raw decimals = true := by
  intro raw d hd hraw
  obtain ⟨dec, h1, hval, _⟩ := to_decimal_ok hd hraw
  simp only [roundTripOk, h1, from_decimal_exact hd hraw hval, beq_self_eq_true]

/-- C1 (witness): the amended round trip at `raw = 10^18`, `decimals = 18`
(one whole token at the native asset's precision). -/
theorem c1_roundtrip_witness : roundTripOk (10 ^ 18) 18 = true :=
  c1_roundtrip_amended (10 ^ 18) 18 (by norm_num) (by norm_num)

/-! ### Claim C9: `from_decimal` output bounds -/

theorem from_decimal_neg {dec : Dec} (hscale : dec.scale ≤ 28) (hneg : dec.num < 0)
    {decs : Nat} (hd : decs ≤ 28) :
    ∃ msg, from_decimal dec decs = some (Except.error (EthError.precisionError msg)) := by
  cases hm : Dec.mul dec ⟨(10 : Int) ^ decs, 0⟩ with
  | none =>
    exact ⟨"Multiplication overflow",
      by simp only [from_decimal, powTenDec_eq decs hd, hm]⟩
  | some rd =>
    have hrdneg : rd.num < 0 := by
      unfold Dec.mul at hm
      refine fitFrac_neg (by positivity) ?_ ?_ rd hm
      · exact mul_neg_of_neg_of_pos hneg (by positivity)
      · refine ⟨dec.scale, hscale, ?_⟩
        have hcd : ((10 ^ (dec.scale + 0) : Nat) : Int) = 10 ^ dec.scale := by
          push_cast; ring
        rw [hcd]
        have hcomm : dec.num * (10 : Int) ^ decs * 10 ^ dec.scale =
            (10 : Int) ^ dec.scale * (dec.num * 10 ^ decs) := by ring
        rw [hcomm]
        exact Int.mul_emod_right _ _
    have ht : rd.toU128 = none := by
      unfold Dec.toU128
      rw [if_pos hrdneg]
    exact ⟨"Amount too large",
      by simp only [from_decimal, powTenDec_eq decs hd, hm, ht]⟩

/-- C9: whenever `from_decimal` returns `Ok(raw)`, the raw amount fits an
unsigned 128-bit integer (the `to_u128` step enforces this even though the
return type is 256-bit); a negative decimal input is never returned as `Ok`,
and (whenever the `10^decimals` loop does not already panic, i.e.
`decimals ≤ 28`) is rejected with a `PrecisionError`. -/
theorem c9_from_decimal_bounds :
    (∀ dec decs n, from_decimal dec decs = some (Except.ok n) → n ≤ 2 ^ 128 - 1) ∧
    (∀ dec decs, dec.scale ≤ 28 → dec.val < 0 →
      ∀ n, from_decimal dec decs ≠ some (Except.ok n)) ∧
    (∀ dec decs, dec.scale ≤ 28 → decs ≤ 28 → dec.val < 0 →
      ∃ msg, from_decimal dec decs = some (Except.error (EthError.precisionError msg))) := by
  refine ⟨?_, ?_, ?_⟩
  · intro dec decs n h
    unfold from_decimal at h
    cases hp : powTenDec decs with
    | none => rw [hp] at h; cases h
    | some m =>
      simp only [hp, Option.some_inj] at h
      cases hm : Dec.mul dec m with
      | none => simp only [hm] at h; cases h
      | some rd =>
        simp only [hm] at h
        cases ht : rd.toU128 with
        | none => simp only [ht] at h; cases h
        | some t =>
          simp only [ht] at h
          injection h with h
          unfold Dec.toU128 at ht
          by_cases h0 : rd.num < 0
          · rw [if_pos h0] at ht; cases ht
          · rw [if_neg h0] at ht
            simp only at ht
            by_cases h1 : (rd.num.ediv (10 ^ rd.scale)).toNat < 2 ^ 128
            · rw [if_pos h1] at ht
              injection ht with ht
              omega
            · rw [if_neg h1] at ht; cases ht
  · intro dec decs hscale hneg n
    rw [Dec.val_neg_iff] at hneg
    by_cases hd : decs ≤ 28
    · obtain ⟨msg, hmsg⟩ := from_decimal_neg hscale hneg hd
      rw [hmsg]
      intro h
      injection h with h
      cases h
    · intro h
      unfold from_decimal at h
      rw [powTenDec_none decs (by omega)] at h
      cases h
  · intro dec decs hscale hd hneg
    rw [Dec.val_neg_iff] at hneg
    exact from_decimal_neg hscale hneg hd

/-- C9 (witness): a positive conversion stays within the `u128` bound, and a
negative input is rejected with a `PrecisionError`. -/
theorem c9_from_decimal_bounds_witness :
    (from_decimal ⟨1, 0⟩ 6 = some (Except.ok 1000000) ∧ 1000000 ≤ 2 ^ 128 - 1) ∧
    (∃ msg, from_decimal ⟨-1, 0⟩ 0 = some (Except.error (EthError.precisionError msg))) :=
  ⟨⟨by decide, c9_from_decimal_bounds.1 ⟨1, 0⟩ 6 1000000 (by decide)⟩,
    c9_from_decimal_bounds.2.2 ⟨-1, 0⟩ 0 (by norm_num) (by norm_num)
      (by norm_num [Dec.val])⟩

/-! ### Claim C3: `calculate_min_output_with_slippage` -/

/-- C3 (counterexample): the result is not always exactly
`expected * (1 - slippage/100)`.  At `expected = 33` and
`slippage = 10^-26` (within `[0, 100]`), the exact product
`33 * (1 - 10^-28)` needs 28 fractional digits next to a 2-digit integer
part, which exceeds the 96-bit mantissa, so the multiplication rounds: the
function returns `32.999999999999999999999999997`, not the exact value
`32.9999999999999999999999999967`. -/
theorem c3_slippage_counterexample :
    (0 : ℚ) ≤ (⟨1, 26⟩ : Dec).val ∧ (⟨1, 26⟩ : Dec).val ≤ 100 ∧
    calculate_min_output_with_slippage (Dec.ofNat 33) ⟨1, 26⟩ =
      some (Except.ok ⟨32999999999999999999999999997, 27⟩) ∧
    (⟨32999999999999999999999999997, 27⟩ : Dec).val ≠
      (Dec.ofNat 33).val * (1 - (⟨1, 26⟩ : Dec).val / 100) := by
  refine ⟨by norm_num [Dec.val], by norm_num [Dec.val], by decide, ?_⟩
  norm_num [Dec.val, Dec.ofNat]

/-- C3 (amended): for `0 ≤ slippage ≤ 100` the function returns exactly
`expected * (1 - slippage/100)` whenever `slippage/100` and the final product
are exactly representable in the 96-bit/28-digit decimal type (otherwise the
result is correctly rounded to the representable precision); and for every
`slippage < 0` or `slippage > 100` it fails with the `PrecisionError`
"Slippage must be between 0 and 100", for every expected output. -/
theorem c3_slippage_amended :
    (∀ e s : Dec, 0 ≤ s.val → s.val ≤ 100 →
        reprExact (s.val / 100) → reprExact (e.val * (1 - s.val / 100)) →
        ∃ r, calculate_min_output_with_slippage e s = some (Except.ok r) ∧
          r.val = e.val * (1 - s.val / 100)) ∧
    (∀ e s : Dec, s.val < 0 ∨ 100 < s.val →
        calculate_min_output_with_slippage e s =
          some (Except.error (EthError.precisionError "Slippage must be between 0 and 100"))) := by
  have hval0 : (⟨0, 0⟩ : Dec).val = 0 := by norm_num [Dec.val]
  have hval100 : (Dec.ofNat 100).val = 100 := by norm_num [Dec.val, Dec.ofNat]
  constructor
  · intro e s hs0 hs100 hrep1 hrep2
    have hguard : ¬(s.lt ⟨0, 0⟩ ∨ (Dec.ofNat 100).lt s) := by
      rw [not_or, Dec.lt_iff_val, Dec.lt_iff_val, hval0, hval100]
      exact ⟨not_lt.mpr hs0, not_lt.mpr hs100⟩
    -- division stage: slippage / 100
    have hdivval : ((s.num * 10 ^ (0 : Nat) : Int) : ℚ) /
        ((((100 : Nat) : Int).natAbs * 10 ^ s.scale : Nat) : ℚ) = s.val / 100 := by
      unfold Dec.val
      push_cast
      have h10 : ((10 : ℚ)) ^ s.scale ≠ 0 := by positivity
      field_simp
      exact Or.inl (by ring)
    obtain ⟨dq, hdq_eq, hdq_val0, hdq_wf⟩ :=
      fitFrac_exact_of_val (n := s.num * 10 ^ (0 : Nat))
        (d := ((100 : Nat) : Int).natAbs * 10 ^ s.scale) (by positivity)
        (by rw [hdivval]; exact hrep1)
    have hdq_val : dq.val = s.val / 100 := by rw [hdq_val0, hdivval]
    have hdiv : Dec.div s (Dec.ofNat 100) = some dq := by
      show (if ((100 : Nat) : Int) = 0 then none
        else if ((100 : Nat) : Int) < 0 then
          fitFrac (-(s.num * 10 ^ (0 : Nat))) (((100 : Nat) : Int).natAbs * 10 ^ s.scale)
        else fitFrac (s.num * 10 ^ (0 : Nat)) (((100 : Nat) : Int).natAbs * 10 ^ s.scale)) =
        some dq
      rw [if_neg (by norm_num), if_neg (by norm_num)]
      exact hdq_eq
    -- subtraction stage: 1 - slippage/100
    have hdqnum0 : 0 ≤ dq.num := by
      by_contra hc
      push_neg at hc
      have hneg := (Dec.val_neg_iff dq).mpr hc
      rw [hdq_val] at hneg
      have : (0 : ℚ) ≤ s.val / 100 := div_nonneg hs0 (by norm_num)
      linarith
    have hdqnum_le : dq.num ≤ 10 ^ dq.scale := by
      have hle1 : dq.val ≤ 1 := by
        rw [hdq_val, div_le_one (by norm_num)]
        exact hs100
      unfold Dec.val at hle1
      rw [div_le_one (by positivity)] at hle1
      exact_mod_cast hle1
    have hscale10 : (10 : Int) ^ dq.scale ≤ 10 ^ 28 :=
      pow_le_pow_right₀ (by norm_num) hdq_wf.2
    have hlit : (10 : Int) ^ 28 < 2 ^ 96 := by norm_num
    have hc2fit : ((10 : Int) ^ dq.scale - dq.num).natAbs < 2 ^ 96 := by omega
    have hsubcast : (((1 : Nat) : Int) * 10 ^ dq.scale - dq.num * 10 ^ (0 : Nat)) *
        10 ^ dq.scale =
        ((10 ^ (0 + dq.scale) : Nat) : Int) * ((10 : Int) ^ dq.scale - dq.num) := by
      push_cast
      ring
    obtain ⟨dm, hdm_eq, hdm_val0, hdm_wf⟩ :=
      fitFrac_exact (n := ((1 : Nat) : Int) * 10 ^ dq.scale - dq.num * 10 ^ (0 : Nat))
        (d := 10 ^ (0 + dq.scale)) (by positivity) hdq_wf.2 hsubcast hc2fit
    have hdm_val : dm.val = 1 - s.val / 100 := by
      rw [hdm_val0, ← hdq_val]
      unfold Dec.val
      push_cast
      have h10 : ((10 : ℚ)) ^ dq.scale ≠ 0 := by positivity
      field_simp
    have hsub : Dec.sub (Dec.ofNat 1) dq = some dm := hdm_eq
    -- multiplication stage: expected * multiplier
    have hmulval : ((e.num * dm.num : Int) : ℚ) /
        (((10 ^ (e.scale + dm.scale) : Nat)) : ℚ) = e.val * dm.val := by
      unfold Dec.val
      push_cast
      have h1 : ((10 : ℚ)) ^ e.scale ≠ 0 := by positivity
      have h2 : ((10 : ℚ)) ^ dm.scale ≠ 0 := by positivity
      field_simp
      exact Or.inl (pow_add (10 : ℚ) e.scale dm.scale).symm
    obtain ⟨r, hr_eq, hr_val0, hr_wf⟩ :=
      fitFrac_exact_of_val (n := e.num * dm.num) (d := 10 ^ (e.scale + dm.scale))
        (by positivity)
        (by rw [hmulval, hdm_val]; exact hrep2)
    have hmul : Dec.mul e dm = some r := hr_eq
    refine ⟨r, ?_, ?_⟩
    · unfold calculate_min_output_with_slippage
      rw [if_neg hguard]
      simp only [hdiv, hsub, hmul]
    · rw [hr_val0, hmulval, hdm_val]
  · intro e s hs
    have hguard : s.lt ⟨0, 0⟩ ∨ (Dec.ofNat 100).lt s := by
      rw [Dec.lt_iff_val, Dec.lt_iff_val, hval0, hval100]
      exact hs
    unfold calculate_min_output_with_slippage
    rw [if_pos hguard]

/-- C3 (witness): `minOutputWithSlippage(100, 0.5) = 99.5` exactly (through
the amended theorem, with explicit representability witnesses), and
`minOutputWithSlippage(1, 101)` fails the range check. -/
theorem c3_slippage_witness :
    (∃ r, calculate_min_output_with_slippage (Dec.ofNat 100) ⟨5, 1⟩ =
        some (Except.ok r) ∧
        r.val = (Dec.ofNat 100).val * (1 - (⟨5, 1⟩ : Dec).val / 100)) ∧
    calculate_min_output_with_slippage (Dec.ofNat 100) ⟨5, 1⟩ =
      some (Except.ok ⟨995, 1⟩) ∧
    (⟨995, 1⟩ : Dec).val = (995 : ℚ) / 10 ∧
    calculate_min_output_with_slippage (Dec.ofNat 1) (Dec.ofNat 101) =
      some (Except.error (EthError.precisionError "Slippage must be between 0 and 100")) := by
  refine ⟨?_, by decide, by norm_num [Dec.val], ?_⟩
  · exact c3_slippage_amended.1 (Dec.ofNat 100) ⟨5, 1⟩
      (by norm_num [Dec.val])
      (by norm_num [Dec.val])
      ⟨3, 5, by norm_num, by norm_num [Dec.val], by norm_num⟩
      ⟨1, 995, by norm_num, by norm_num [Dec.val, Dec.ofNat], by norm_num⟩
  · exact c3_slippage_amended.2 (Dec.ofNat 1) (Dec.ofNat 101)
      (Or.inr (by norm_num [Dec.val, Dec.ofNat]))

/-! ### Lemmas about the swap pipeline -/

theorem eth_to_weth_eq (a : Address) :
    eth_to_weth a = .ok (if a == ETH_ADDR then WETH_ADDR else a) := by
  unfold eth_to_weth
  by_cases h : a == ETH_ADDR
  · rw [if_pos h, if_pos h]
    have hw : parseAddress "0xC02aaA39b223FE8D0A0e5C4F27eAD9083C756Cc2" = some WETH_ADDR := by
      decide
    rw [hw]
  · rw [if_neg h, if_neg h]

theorem swapStage2_ne_error (env : SwapEnv) (request : SwapRequest)
    (a b : Address) (fie tie : Bool) (w : Address) (amt : Dec) :
    ∀ e, swapStage2 env request a b fie tie w amt ≠ some (Except.error e) := by
  intro e
  unfold swapStage2
  split
  · simp
  split
  · simp
  split
  · simp
  · simp
  split
  · simp
  split
  · simp
  split
  · simp
  · simp
  split
  · simp
  · simp
  split
  · simp
  split
  · simp
  simp

theorem swapStage2_ok_invariant (env : SwapEnv) (request : SwapRequest)
    (a b : Address) (fie tie : Bool) (w : Address) (amt : Dec) :
    ∀ r, swapStage2 env request a b fie tie w amt = some (Except.ok r) →
      (r.simulation_success = true ↔ r.error = none) := by
  intro r h
  unfold swapStage2 at h
  split at h
  · injection h with h; injection h with h; subst h; simp [mkFailResponse]
  split at h
  · injection h with h; injection h with h; subst h; simp [mkFailResponse]
  split at h
  · cases h
  · injection h with h; injection h with h; subst h; simp [mkFailResponse]
  split at h
  · injection h with h; injection h with h; subst h; simp [mkFailResponse]
  split at h
  · injection h with h; injection h with h; subst h; simp [mkFailResponse]
  split at h
  · cases h
  · injection h with h; injection h with h; subst h; simp [mkFailResponse]
  split at h
  · cases h
  · injection h with h; injection h with h; subst h; simp [mkFailResponse]
  split at h
  · cases h
  split at h
  · cases h
  injection h with h
  injection h with h
  subst h
  simp

/-! ### Claim C2: error propagation in `simulate_swap` -/

/-- A fully successful gateway environment used by the C2 counterexample. -/
def c2SwapEnv : SwapEnv :=
  ⟨true, .ok ⟨"w", "1000000", 18, "0", "ETH", "e"⟩, .ok 6, .ok 6, .ok [100, 99],
    .ok 1, .ok 21000, 0⟩

/-- The C2 counterexample request: an unresolvable `from_token`. -/
def c2SwapRequest : SwapRequest :=
  ⟨"NOTATOKEN", "USDC", "1", ⟨5, 1⟩, "0xd8dA6BF26964aF9D7eEd9e03E53415D37aA96045"⟩

/-- C2 (counterexample): a token-resolution failure is propagated as a
protocol-level `Err` (`InvalidTokenPair`, via `?` at `src/tools/swap.rs:93`),
not downgraded to a failed `SwapQuote` — contradicting the claim that token
resolution short-circuits to a non-fatal failed quote. -/
theorem c2_swap_error_counterexample :
    simulate_swap c2SwapEnv c2SwapRequest =
      some (Except.error (EthError.invalidTokenPair "无法解析代币: NOTATOKEN")) := by
  decide

/-- C2 (amended): once both token identifiers resolve and the wallet address
parses, every later failure of the pipeline is downgraded to an `Ok` response
(a failed quote), never an `Err`; but resolution and wallet-parsing failures
themselves are propagated as `Err`. -/
theorem c2_swap_error_amended :
    ∀ (env : SwapEnv) (request : SwapRequest) (aF aT w : Address),
      resolve_token request.from_token = .ok aF →
      resolve_token request.to_token = .ok aT →
      parseAddress request.wallet_address = some w →
      ∀ e, simulate_swap env request ≠ some (Except.error e) := by
  intro env req aF aT w h1 h2 h3 e
  unfold simulate_swap
  simp only [h1, h2, eth_to_weth_eq, h3]
  split
  · simp
  split
  · split
    · simp
    · exact swapStage2_ne_error _ _ _ _ _ _ _ _ e
  · exact swapStage2_ne_error _ _ _ _ _ _ _ _ e

/-- C2 (witness): with resolvable tokens and a parsing wallet the result is
never an `Err`, instantiated on a concrete environment and request. -/
theorem c2_swap_error_witness :
    simulate_swap c2SwapEnv
      ⟨"ETH", "USDC", "1", ⟨5, 1⟩, "0xd8dA6BF26964aF9D7eEd9e03E53415D37aA96045"⟩ ≠
        some (Except.error (EthError.unknown "any")) :=
  c2_swap_error_amended c2SwapEnv _ ETH_ADDR USDC_ADDR
    "D8DA6BF26964AF9D7EED9E03E53415D37AA96045" (by decide) (by decide) (by decide)
    (EthError.unknown "any")

/-! ### Claim C6: malformed amount handling in `simulate_swap` -/

/-- A fully successful gateway environment used by the C6 theorems. -/
def c6SwapEnv : SwapEnv :=
  ⟨true, .ok ⟨"w", "1000000", 18, "0", "ETH", "e"⟩, .ok 6, .ok 6, .ok [100, 99],
    .ok 1, .ok 21000, 0⟩

/-- C6 (counterexample): a request whose amount does not parse can still
produce a protocol-level `Err` rather than an `Ok` failed quote, because
token resolution runs first and propagates with `?`
(`src/tools/swap.rs:93`). -/
theorem c6_invalid_amount_counterexample :
    parseDecimal "abc" = none ∧
    simulate_swap c6SwapEnv
        ⟨"NOTATOKEN", "USDC", "abc", ⟨5, 1⟩,
          "0xd8dA6BF26964aF9D7eEd9e03E53415D37aA96045"⟩ =
      some (Except.error (EthError.invalidTokenPair "无法解析代币: NOTATOKEN")) :=
  ⟨by decide, by decide⟩

/-- C6 (amended): for every request whose token identifiers resolve and whose
wallet address parses, a non-parsing amount string yields `Ok` with
`simulation_success = false` and the amount-format error message
"无效的金额格式" — never an `Err`. -/
theorem c6_invalid_amount_amended :
    ∀ (env : SwapEnv) (request : SwapRequest) (aF aT w : Address),
      resolve_token request.from_token = .ok aF →
      resolve_token request.to_token = .ok aT →
      parseAddress request.wallet_address = some w →
      parseDecimal request.amount = none →
      simulate_swap env request =
        some (Except.ok (mkFailResponse request "0" "无效的金额格式")) := by
  intro env req aF aT w h1 h2 h3 h4
  unfold simulate_swap
  simp only [h1, h2, eth_to_weth_eq, h3, h4]

/-- C6 (witness): the repository's own test scenario — swapping `"invalid"`
units of ETH for USDC returns a failed quote with the amount-format error. -/
theorem c6_invalid_amount_witness :
    simulate_swap c6SwapEnv
        ⟨"ETH", "USDC", "invalid", ⟨5, 1⟩,
          "0xd8dA6BF26964aF9D7eEd9e03E53415D37aA96045"⟩ =
      some (Except.ok (mkFailResponse
        ⟨"ETH", "USDC", "invalid", ⟨5, 1⟩,
          "0xd8dA6BF26964aF9D7eEd9e03E53415D37aA96045"⟩ "0" "无效的金额格式")) :=
  c6_invalid_amount_amended c6SwapEnv _ ETH_ADDR USDC_ADDR
    "D8DA6BF26964AF9D7EED9E03E53415D37AA96045" (by decide) (by decide) (by decide)
    (by decide)

/-! ### Claim C7: the advisory balance check in `simulate_swap` -/

/-- C7: when the balance query succeeds and the available balance is below
the requested input, `simulate_swap` returns a failed quote whose error
message names both figures (`"余额不足: {available} 可用, {required} 需要"`);
when the balance query itself fails, the simulation proceeds with the
remaining pipeline stages unchanged. -/
theorem c7_balance_check :
    (∀ (env : SwapEnv) (request : SwapRequest) (aF aT w : Address) (amt : Dec)
        (bal : BalanceResponse),
      resolve_token request.from_token = .ok aF →
      resolve_token request.to_token = .ok aT →
      parseAddress request.wallet_address = some w →
      parseDecimal request.amount = some amt →
      env.balanceToolAvailable = true →
      env.balanceResult = .ok bal →
      ((parseDecimal bal.balance).getD ⟨0, 0⟩).lt amt →
      simulate_swap env request = some (Except.ok (mkFailResponse request "0"
        ("余额不足: " ++ Dec.display ((parseDecimal bal.balance).getD ⟨0, 0⟩) ++
          " 可用, " ++ Dec.display amt ++ " 需要")))) ∧
    (∀ (env : SwapEnv) (request : SwapRequest) (aF aT w : Address) (amt : Dec)
        (err : EthError),
      resolve_token request.from_token = .ok aF →
      resolve_token request.to_token = .ok aT →
      parseAddress request.wallet_address = some w →
      parseDecimal request.amount = some amt →
      env.balanceToolAvailable = true →
      env.balanceResult = .error err →
      simulate_swap env request =
        swapStage2 env request (if aF == ETH_ADDR then WETH_ADDR else aF)
          (if aT == ETH_ADDR then WETH_ADDR else aT) (is_eth request.from_token)
          (is_eth request.to_token) w amt) := by
  constructor
  · intro env req aF aT w amt bal h1 h2 h3 h4 h5 h6 hlt
    unfold simulate_swap
    simp only [h1, h2, eth_to_weth_eq, h3, h4, h5, if_true, h6]
    rw [if_pos hlt]
  · intro env req aF aT w amt err h1 h2 h3 h4 h5 h6
    unfold simulate_swap
    simp only [h1, h2, eth_to_weth_eq, h3, h4, h5, if_true, h6]

/-- Environment for the C7 witness, insufficient-balance side: the wallet
holds `50` of the source token. -/
def c7SwapEnvLow : SwapEnv :=
  ⟨true, .ok ⟨"w", "50", 6, "50000000", "USDC", "e"⟩, .ok 6, .ok 6, .ok [100, 99],
    .ok 1, .ok 21000, 0⟩

/-- Environment for the C7 witness, gateway-failure side. -/
def c7SwapEnvErr : SwapEnv :=
  ⟨true, .error (.rpcError "boom"), .ok 6, .ok 6, .ok [100, 99], .ok 1, .ok 21000, 0⟩

/-- The C7 witness request: swap `100` USDC for DAI. -/
def c7SwapRequest : SwapRequest :=
  ⟨"USDC", "DAI", "100", ⟨5, 1⟩, "0xd8dA6BF26964aF9D7eEd9e03E53415D37aA96045"⟩

/-- C7 (witness): balance `50` against requested `100` yields the failed
quote naming both figures, and a failing balance query leaves the pipeline
running the remaining stages. -/
theorem c7_balance_check_witness :
    simulate_swap c7SwapEnvLow c7SwapRequest =
      some (Except.ok (mkFailResponse c7SwapRequest "0" "余额不足: 50 可用, 100 需要")) ∧
    simulate_swap c7SwapEnvErr c7SwapRequest =
      swapStage2 c7SwapEnvErr c7SwapRequest
        (if USDC_ADDR == ETH_ADDR then WETH_ADDR else USDC_ADDR)
        (if "6B175474E89094C44DA98B954EEDEAC495271D0F" == ETH_ADDR then WETH_ADDR
          else "6B175474E89094C44DA98B954EEDEAC495271D0F")
        (is_eth c7SwapRequest.from_token) (is_eth c7SwapRequest.to_token)
        "D8DA6BF26964AF9D7EED9E03E53415D37AA96045" ⟨100, 0⟩ := by
  constructor
  · have h := c7_balance_check.1 c7SwapEnvLow c7SwapRequest USDC_ADDR
      "6B175474E89094C44DA98B954EEDEAC495271D0F"
      "D8DA6BF26964AF9D7EED9E03E53415D37AA96045" ⟨100, 0⟩
      ⟨"w", "50", 6, "50000000", "USDC", "e"⟩
      (by decide) (by decide) (by decide) (by decide) (by decide) (by decide) (by decide)
    exact h
  · exact c7_balance_check.2 c7SwapEnvErr c7SwapRequest USDC_ADDR
      "6B175474E89094C44DA98B954EEDEAC495271D0F"
      "D8DA6BF26964AF9D7EED9E03E53415D37AA96045" ⟨100, 0⟩ (.rpcError "boom")
      (by decide) (by decide) (by decide) (by decide) (by decide) (by decide)

/-! ### Claim C10: success flag / error field invariant -/

/-- C10: every `SwapResponse` that `simulate_swap` returns satisfies
`simulation_success = true` iff `error = None`: failed quotes always carry a
message and the success quote never does. -/
theorem c10_success_iff_no_error :
    ∀ (env : SwapEnv) (request : SwapRequest) (r : SwapResponse),
      simulate_swap env request = some (Except.ok r) →
      (r.simulation_success = true ↔ r.error = none) := by
  intro env req r h
  unfold simulate_swap at h
  split at h
  · simp at h
  split at h
  · simp at h
  split at h
  · simp at h
  split at h
  · simp at h
  split at h
  · simp at h
  split at h
  · injection h with h
    injection h with h
    subst h
    simp [mkFailResponse]
  split at h
  · split at h
    · injection h with h
      injection h with h
      subst h
      simp [mkFailResponse]
    · exact swapStage2_ok_invariant _ _ _ _ _ _ _ _ r h
  · exact swapStage2_ok_invariant _ _ _ _ _ _ _ _ r h

/-- Environment for the C10 witness: every gateway call succeeds, so the
pipeline produces the success quote. -/
def c10SwapEnv : SwapEnv :=
  ⟨true, .ok ⟨"w", "1000000", 6, "1000000000000", "USDC", "e"⟩, .ok 6, .ok 6,
    .ok [1000000, 990000], .ok 1, .ok 21000, 0⟩

/-- C10 (witness): the invariant instantiated on a concrete successful
simulation. -/
theorem c10_success_iff_no_error_witness :
    ∃ r, simulate_swap c10SwapEnv
        ⟨"USDC", "DAI", "1", ⟨5, 1⟩, "0xd8dA6BF26964aF9D7eEd9e03E53415D37aA96045"⟩ =
        some (Except.ok r) ∧ (r.simulation_success = true ↔ r.error = none) := by
  have h : simulate_swap c10SwapEnv
      ⟨"USDC", "DAI", "1", ⟨5, 1⟩, "0xd8dA6BF26964aF9D7eEd9e03E53415D37aA96045"⟩ =
      some (Except.ok ⟨"USDC", "DAI", "1", "0.99", "0.98505", "0.000000000000021",
        "0.5", true, none⟩) := by decide
  exact ⟨_, h, c10_success_iff_no_error c10SwapEnv _ _ h⟩

/-! ### Claim C4: zero-pair and zero-reserve failures in the price oracle -/

theorem Dec.val_zero_iff (d : Dec) : d.val = 0 ↔ d.num = 0 := by
  unfold Dec.val
  rw [div_eq_zero_iff]
  constructor
  · intro h
    rcases h with h | h
    · exact_mod_cast h
    · exact absurd h (by positivity)
  · intro h
    exact Or.inl (by exact_mod_cast h)

theorem to_decimal_zero_num {dt : Nat} {res : Dec}
    (h : to_decimal 0 dt = some (Except.ok res)) : res.num = 0 := by
  by_cases hd : dt ≤ 28
  · obtain ⟨dec, heq, hval, _⟩ := @to_decimal_ok 0 dt hd (by norm_num)
    rw [heq] at h
    injection h with h
    injection h with h
    subst h
    rw [← Dec.val_zero_iff, hval]
    norm_num
  · rw [to_decimal, powTenDec_none dt (by omega)] at h
    cases h

/-- C4: the direct spot-price lookup fails — and never returns a numeric
price — when the factory reports the zero-address sentinel or when either of
the pool's two reserves is zero.  The zero-pair and zero-quote-reserve checks
fail with the dedicated `PriceOracleError`s unconditionally; the
zero-token-reserve check fails with its `PriceOracleError` once the two
`decimals()` gateway calls succeed with representable values. -/
theorem c4_pool_zero_failures :
    (∀ (env : PoolEnv) (t q : Address),
      env.providerOk = true →
      env.getPairResult = .ok zeroAddress →
      get_price_from_uniswap_pool env t q =
        some (Except.error (EthError.priceOracleError "交易对不存在"))) ∧
    (∀ (env : PoolEnv) (t q p : Address) (r0 r1 : Nat) (t0 : Address),
      env.providerOk = true →
      env.getPairResult = .ok p → (p == zeroAddress) = false →
      env.getReservesResult = .ok (r0, r1) →
      env.token0Result = .ok t0 →
      (if t0 == t then r1 else r0) = 0 →
      get_price_from_uniswap_pool env t q =
        some (Except.error (EthError.priceOracleError "报价代币储备为零"))) ∧
    (∀ (env : PoolEnv) (t q p : Address) (r0 r1 : Nat) (t0 : Address) (dt dq : Nat),
      env.providerOk = true →
      env.getPairResult = .ok p → (p == zeroAddress) = false →
      env.getReservesResult = .ok (r0, r1) →
      env.token0Result = .ok t0 →
      (if t0 == t then r0 else r1) = 0 →
      (if t0 == t then r1 else r0) ≠ 0 →
      env.tokenDecimalsResult = .ok dt → dt ≤ 28 →
      env.quoteDecimalsResult = .ok dq → dq ≤ 28 →
      (if t0 == t then r1 else r0) < 2 ^ 96 →
      get_price_from_uniswap_pool env t q =
        some (Except.error (EthError.priceOracleError "代币储备为零"))) ∧
    (∀ (env : PoolEnv) (t q : Address) (r0 r1 : Nat) (t0 : Address),
      env.getReservesResult = .ok (r0, r1) →
      env.token0Result = .ok t0 →
      ((if t0 == t then r0 else r1) = 0 ∨ (if t0 == t then r1 else r0) = 0) →
      ∀ pr, get_price_from_uniswap_pool env t q ≠ some (Except.ok pr)) := by
  have hfac : parseAddress "0x5C69bEe701ef814a2B6a3EDD4B1652CB9cc5aA6f" =
      some "5C69BEE701EF814A2B6A3EDD4B1652CB9CC5AA6F" := by decide
  refine ⟨?_, ?_, ?_, ?_⟩
  · intro env t q hprov hpair
    simp [get_price_from_uniswap_pool, hfac, hprov, hpair]
  · intro env t q p r0 r1 t0 hprov hpair hpz hres ht0 hz
    have hpz' : p ≠ zeroAddress := by simpa using hpz
    by_cases hb : (t0 == t) = true
    · rw [if_pos hb] at hz
      subst hz
      simp [get_price_from_uniswap_pool, hfac, hprov, hpair, hres, ht0, hb, hpz']
    · rw [if_neg hb] at hz
      subst hz
      simp [get_price_from_uniswap_pool, hfac, hprov, hpair, hres, ht0, hb, hpz']
  · intro env t q p r0 r1 t0 dt dq hprov hpair hpz hres ht0 hz hnz hdt hdt28 hdq hdq28 hrq
    have hpz' : p ≠ zeroAddress := by simpa using hpz
    by_cases hb : (t0 == t) = true
    · rw [if_pos hb] at hz
      rw [if_pos hb] at hnz
      rw [if_pos hb] at hrq
      subst hz
      obtain ⟨rtDec, hrt_eq, hrt_val, _⟩ := @to_decimal_ok 0 dt hdt28 (by norm_num)
      obtain ⟨rqDec, hrq_eq, _, _⟩ := @to_decimal_ok r1 dq hdq28 hrq
      have hrt0 : rtDec.isZero := by
        rw [Dec.isZero, ← Dec.val_zero_iff, hrt_val]
        norm_num
      simp [get_price_from_uniswap_pool, hfac, hprov, hpair, hres, ht0, hb, hpz',
        hnz, hdt, hdq, hrt_eq, hrq_eq, hrt0]
    · rw [if_neg hb] at hz
      rw [if_neg hb] at hnz
      rw [if_neg hb] at hrq
      subst hz
      obtain ⟨rtDec, hrt_eq, hrt_val, _⟩ := @to_decimal_ok 0 dt hdt28 (by norm_num)
      obtain ⟨rqDec, hrq_eq, _, _⟩ := @to_decimal_ok r0 dq hdq28 hrq
      have hrt0 : rtDec.isZero := by
        rw [Dec.isZero, ← Dec.val_zero_iff, hrt_val]
        norm_num
      simp [get_price_from_uniswap_pool, hfac, hprov, hpair, hres, ht0, hb, hpz',
        hnz, hdt, hdq, hrt_eq, hrq_eq, hrt0]
  · intro env t q r0 r1 t0 hres ht0 hz pr h
    unfold get_price_from_uniswap_pool at h
    simp only [hfac, hres, ht0] at h
    by_cases hb : (t0 == t) = true
    · simp only [hb, if_true] at h
      by_cases hr1 : r1 = 0
      · subst hr1
        simp at h
        cases hpv : env.providerOk
        · rw [if_pos hpv] at h
          simp at h
        · rw [if_neg (by simp [hpv])] at h
          rcases hgp : env.getPairResult with e2 | pa
          · simp [hgp] at h
          · simp only [hgp] at h
            split at h <;> simp at h
      · have hr0 : r0 = 0 := by
          rcases hz with hz | hz
          · simpa [hb] using hz
          · exact absurd (by simpa [hb] using hz : r1 = 0) hr1
        subst hr0
        rw [beq_eq_false_iff_ne.mpr hr1] at h
        simp only [Bool.false_eq_true, if_false] at h
        rcases hdtc : env.tokenDecimalsResult with e | dt
        · simp [hdtc] at h
          cases hpv : env.providerOk
          · rw [if_pos hpv] at h
            simp at h
          · rw [if_neg (by simp [hpv])] at h
            rcases hgp : env.getPairResult with e2 | pa
            · simp [hgp] at h
            · simp only [hgp] at h
              split at h <;> simp at h
        · simp only [hdtc] at h
          rcases hdqc : env.quoteDecimalsResult with e | dq
          · simp [hdqc] at h
            cases hpv : env.providerOk
            · rw [if_pos hpv] at h
              simp at h
            · rw [if_neg (by simp [hpv])] at h
              rcases hgp : env.getPairResult with e2 | pa
              · simp [hgp] at h
              · simp only [hgp] at h
                split at h <;> simp at h
          · simp only [hdqc] at h
            rcases hrt : to_decimal 0 dt with _ | res
            · simp [hrt] at h
              cases hpv : env.providerOk
              · rw [if_pos hpv] at h
                simp at h
              · rw [if_neg (by simp [hpv])] at h
                rcases hgp : env.getPairResult with e2 | pa
                · simp [hgp] at h
                · simp only [hgp] at h
                  split at h <;> simp at h
            · rcases res with e | rtDec
              · simp [hrt] at h
                cases hpv : env.providerOk
                · rw [if_pos hpv] at h
                  simp at h
                · rw [if_neg (by simp [hpv])] at h
                  rcases hgp : env.getPairResult with e2 | pa
                  · simp [hgp] at h
                  · simp only [hgp] at h
                    split at h <;> simp at h
              · have hrt0 := to_decimal_zero_num hrt
                simp only [hrt] at h
                rcases hrq : to_decimal r1 dq with _ | res2
                · simp [hrq] at h
                  cases hpv : env.providerOk
                  · rw [if_pos hpv] at h
                    simp at h
                  · rw [if_neg (by simp [hpv])] at h
                    rcases hgp : env.getPairResult with e2 | pa
                    · simp [hgp] at h
                    · simp only [hgp] at h
                      split at h <;> simp at h
                · rcases res2 with e | rqDec
                  · simp [hrq] at h
                    cases hpv : env.providerOk
                    · rw [if_pos hpv] at h
                      simp at h
                    · rw [if_neg (by simp [hpv])] at h
                      rcases hgp : env.getPairResult with e2 | pa
                      · simp [hgp] at h
                      · simp only [hgp] at h
                        split at h <;> simp at h
                  · simp only [hrq] at h
                    rw [if_pos (show rtDec.isZero from hrt0)] at h
                    simp at h
                    cases hpv : env.providerOk
                    · rw [if_pos hpv] at h
                      simp at h
                    · rw [if_neg (by simp [hpv])] at h
                      rcases hgp : env.getPairResult with e2 | pa
                      · simp [hgp] at h
                      · simp only [hgp] at h
                        split at h <;> simp at h
    · simp only [Bool.not_eq_true] at hb
      simp only [hb, Bool.false_eq_true, if_false] at h
      by_cases hr0 : r0 = 0
      · subst hr0
        simp at h
        cases hpv : env.providerOk
        · rw [if_pos hpv] at h
          simp at h
        · rw [if_neg (by simp [hpv])] at h
          rcases hgp : env.getPairResult with e2 | pa
          · simp [hgp] at h
          · simp only [hgp] at h
            split at h <;> simp at h
      · have hr1 : r1 = 0 := by
          rcases hz with hz | hz
          · simpa [hb] using hz
          · exact absurd (by simpa [hb] using hz : r0 = 0) hr0
        subst hr1
        rw [beq_eq_false_iff_ne.mpr hr0] at h
        simp only [Bool.false_eq_true, if_false] at h
        rcases hdtc : env.tokenDecimalsResult with e | dt
        · simp [hdtc] at h
          cases hpv : env.providerOk
          · rw [if_pos hpv] at h
            simp at h
          · rw [if_neg (by simp [hpv])] at h
            rcases hgp : env.getPairResult with e2 | pa
            · simp [hgp] at h
            · simp only [hgp] at h
              split at h <;> simp at h
        · simp only [hdtc] at h
          rcases hdqc : env.quoteDecimalsResult with e | dq
          · simp [hdqc] at h
            cases hpv : env.providerOk
            · rw [if_pos hpv] at h
              simp at h
            · rw [if_neg (by simp [hpv])] at h
              rcases hgp : env.getPairResult with e2 | pa
              · simp [hgp] at h
              · simp only [hgp] at h
                split at h <;> simp at h
          · simp only [hdqc] at h
            rcases hrt : to_decimal 0 dt with _ | res
            · simp [hrt] at h
              cases hpv : env.providerOk
              · rw [if_pos hpv] at h
                simp at h
              · rw [if_neg (by simp [hpv])] at h
                rcases hgp : env.getPairResult with e2 | pa
                · simp [hgp] at h
                · simp only [hgp] at h
                  split at h <;> simp at h
            · rcases res with e | rtDec
              · simp [hrt] at h
                cases hpv : env.providerOk
                · rw [if_pos hpv] at h
                  simp at h
                · rw [if_neg (by simp [hpv])] at h
                  rcases hgp : env.getPairResult with e2 | pa
                  · simp [hgp] at h
                  · simp only [hgp] at h
                    split at h <;> simp at h
              · have hrt0 := to_decimal_zero_num hrt
                simp only [hrt] at h
                rcases hrq : to_decimal r0 dq with _ | res2
                · simp [hrq] at h
                  cases hpv : env.providerOk
                  · rw [if_pos hpv] at h
                    simp at h
                  · rw [if_neg (by simp [hpv])] at h
                    rcases hgp : env.getPairResult with e2 | pa
                    · simp [hgp] at h
                    · simp only [hgp] at h
                      split at h <;> simp at h
                · rcases res2 with e | rqDec
                  · simp [hrq] at h
                    cases hpv : env.providerOk
                    · rw [if_pos hpv] at h
                      simp at h
                    · rw [if_neg (by simp [hpv])] at h
                      rcases hgp : env.getPairResult with e2 | pa
                      · simp [hgp] at h
                      · simp only [hgp] at h
                        split at h <;> simp at h
                  · simp only [hrq] at h
                    rw [if_pos (show rtDec.isZero from hrt0)] at h
                    simp at h
                    cases hpv : env.providerOk
                    · rw [if_pos hpv] at h
                      simp at h
                    · rw [if_neg (by simp [hpv])] at h
                      rcases hgp : env.getPairResult with e2 | pa
                      · simp [hgp] at h
                      · simp only [hgp] at h
                        split at h <;> simp at h

/-- Witness for C4: concrete pool environments exercising the zero-pair
sentinel, the zero quote reserve, the zero token reserve, and the
no-numeric-price guarantee. -/
theorem c4_pool_zero_failures_witness :
    get_price_from_uniswap_pool ⟨true, .ok zeroAddress, .ok (0, 0), .ok "A", .ok 18, .ok 18⟩
        "A" "B" = some (Except.error (EthError.priceOracleError "交易对不存在")) ∧
    get_price_from_uniswap_pool ⟨true, .ok "P", .ok (5, 0), .ok "A", .ok 18, .ok 18⟩
        "A" "B" = some (Except.error (EthError.priceOracleError "报价代币储备为零")) ∧
    get_price_from_uniswap_pool ⟨true, .ok "P", .ok (0, 7), .ok "A", .ok 6, .ok 6⟩
        "A" "B" = some (Except.error (EthError.priceOracleError "代币储备为零")) ∧
    get_price_from_uniswap_pool ⟨true, .ok "P", .ok (0, 7), .ok "A", .ok 6, .ok 6⟩
        "A" "B" ≠ some (Except.ok (Dec.ofNat 1)) := by
  refine ⟨?_, ?_, ?_, ?_⟩
  · exact c4_pool_zero_failures.1 ⟨true, .ok zeroAddress, .ok (0, 0), .ok "A", .ok 18, .ok 18⟩
      "A" "B" (by decide) rfl
  · exact c4_pool_zero_failures.2.1 ⟨true, .ok "P", .ok (5, 0), .ok "A", .ok 18, .ok 18⟩
      "A" "B" "P" 5 0 "A" (by decide) rfl (by decide) rfl rfl (by decide)
  · exact c4_pool_zero_failures.2.2.1 ⟨true, .ok "P", .ok (0, 7), .ok "A", .ok 6, .ok 6⟩
      "A" "B" "P" 0 7 "A" 6 6 (by decide) rfl (by decide) rfl rfl (by decide) (by decide)
      rfl (by decide) rfl (by decide) (by decide)
  · exact c4_pool_zero_failures.2.2.2 ⟨true, .ok "P", .ok (0, 7), .ok "A", .ok 6, .ok 6⟩
      "A" "B" 0 7 "A" rfl rfl (Or.inl (by decide)) (Dec.ofNat 1)

/-- C5: for every price request whose quote currency resolves to USD and whose
token identifier resolves to an address, the returned price is the product of
the token's WETH price (taken to be `1` when the token is WETH itself) and the
WETH/USDC price, and a failure of either hop propagates as the failure of the
whole query. -/
theorem c5_usd_two_hop :
    (∀ (env : PriceEnv) (request : PriceRequest) (token_address : Address) (p1 p2 pr : Dec),
      strUpper (request.quote_currency.getD "USD") = "USD" →
      resolvePriceToken (strUpper request.token_identifier) = Except.ok token_address →
      (if token_address == WETH_ADDR then some (Except.ok (Dec.ofNat 1))
       else get_price_from_uniswap_pool env.hop1 token_address WETH_ADDR) =
        some (Except.ok p1) →
      get_price_from_uniswap_pool env.hop2 WETH_ADDR USDC_ADDR = some (Except.ok p2) →
      p1.mul p2 = some pr →
      get_price env request =
        some (Except.ok ⟨"USD", Dec.display pr.normalize, env.nowSecs⟩)) ∧
    (∀ (env : PriceEnv) (request : PriceRequest) (token_address : Address) (e : EthError),
      strUpper (request.quote_currency.getD "USD") = "USD" →
      resolvePriceToken (strUpper request.token_identifier) = Except.ok token_address →
      (if token_address == WETH_ADDR then some (Except.ok (Dec.ofNat 1))
       else get_price_from_uniswap_pool env.hop1 token_address WETH_ADDR) =
        some (Except.error e) →
      get_price env request = some (Except.error e)) ∧
    (∀ (env : PriceEnv) (request : PriceRequest) (token_address : Address) (p1 : Dec)
        (e : EthError),
      strUpper (request.quote_currency.getD "USD") = "USD" →
      resolvePriceToken (strUpper request.token_identifier) = Except.ok token_address →
      (if token_address == WETH_ADDR then some (Except.ok (Dec.ofNat 1))
       else get_price_from_uniswap_pool env.hop1 token_address WETH_ADDR) =
        some (Except.ok p1) →
      get_price_from_uniswap_pool env.hop2 WETH_ADDR USDC_ADDR = some (Except.error e) →
      get_price env request = some (Except.error e)) := by
  have hw : parseAddress "0xC02aaA39b223FE8D0A0e5C4F27eAD9083C756Cc2" = some WETH_ADDR := by
    decide
  have hu : parseAddress "0xA0b86991c6218b36c1d19D4a2e9Eb0cE3606eB48" = some USDC_ADDR := by
    decide
  refine ⟨?_, ?_, ?_⟩
  · intro env request token_address p1 p2 pr hq hres hp1 hp2 hmul
    unfold get_price
    simp only [hq, hres, hw, hu, hp1, hp2, hmul]
    rw [if_neg (by simp), if_neg (by decide)]
  · intro env request token_address e hq hres hp1
    unfold get_price
    simp only [hq, hres, hw, hu, hp1]
    rw [if_neg (by simp), if_neg (by decide)]
  · intro env request token_address p1 e hq hres hp1 hp2
    unfold get_price
    simp only [hq, hres, hw, hu, hp1, hp2]
    rw [if_neg (by simp), if_neg (by decide)]

/-- Witness for C5: pricing `WETH` in USD against a WETH/USDC pool with
reserves 2 and 6000 at zero decimals yields the composed price `1 * 3000`. -/
theorem c5_usd_two_hop_witness :
    get_price
        ⟨.ok "WETH", ⟨true, .ok "P", .ok (1, 1), .ok "A", .ok 0, .ok 0⟩,
         ⟨true, .ok "Q", .ok (2, 6000), .ok WETH_ADDR, .ok 0, .ok 0⟩, 1735689600⟩
        ⟨"WETH", none⟩ =
      some (Except.ok ⟨"USD", "3000", 1735689600⟩) := by
  rw [c5_usd_two_hop.1
      ⟨.ok "WETH", ⟨true, .ok "P", .ok (1, 1), .ok "A", .ok 0, .ok 0⟩,
       ⟨true, .ok "Q", .ok (2, 6000), .ok WETH_ADDR, .ok 0, .ok 0⟩, 1735689600⟩
      ⟨"WETH", none⟩ WETH_ADDR (Dec.ofNat 1) ⟨3000, 0⟩ ⟨3000, 0⟩
      (by decide) (by decide) (by decide) (by decide) (by decide)]
  rfl

/-- Dispatch environment whose three tool handlers trivially succeed, used to
exercise the C8 dispatcher paths. -/
def c8Env : DispatchEnv :=
  ⟨fun _ => .ok .null, fun _ => .ok .null, fun _ => .ok .null⟩

/-- C8 counterexample: a `tools/call` request naming the unknown tool
`"bogus"` but omitting the `arguments` field is answered with code `-32602`
(missing arguments), not the claimed `-32601`, because the arguments check
precedes the tool-name dispatch. -/
theorem c8_dispatch_counterexample :
    ("bogus" ≠ "get_balance" ∧ "bogus" ≠ "get_token_price" ∧ "bogus" ≠ "swap_tokens") ∧
    handle_request c8Env
        ⟨"2.0", "tools/call", Json.obj [("name", Json.str "bogus")], Json.num 1⟩ =
      ⟨"2.0", none, some ⟨-32602, "Missing \x27arguments\x27 parameter", none⟩, Json.num 1⟩ :=
  ⟨by decide, rfl⟩

/-- C8 (amended): `tools/list` returns exactly the three descriptors
`get_balance`, `get_token_price`, `swap_tokens`, and a `tools/call` whose tool
name is none of the three is answered with code `-32601` provided the request
carries an `arguments` field (without one, the `-32602` missing-arguments
check fires first). -/
theorem c8_dispatch_amended :
    (get_tool_definitions.map ToolDefinition.name =
      ["get_balance", "get_token_price", "swap_tokens"]) ∧
    (∀ (env : DispatchEnv) (req : JsonRpcRequest) (name : String) (args : Json),
      req.method = "tools/call" →
      (req.params.getField "name").bind Json.asStr = some name →
      req.params.getField "arguments" = some args →
      name ≠ "get_balance" → name ≠ "get_token_price" → name ≠ "swap_tokens" →
      handle_request env req =
        ⟨"2.0", none, some ⟨-32601, "Tool not found: " ++ name, none⟩, req.id⟩) := by
  refine ⟨rfl, ?_⟩
  intro env req name args hm hname hargs h1 h2 h3
  unfold handle_request handle_tool_call
  simp only [hm, hname, hargs]

/-- Witness for C8: the three tool names, and a `tools/call` for the unknown
tool `"nope"` with an (empty) `arguments` object answered with `-32601`. -/
theorem c8_dispatch_amended_witness :
    get_tool_definitions.map ToolDefinition.name =
      ["get_balance", "get_token_price", "swap_tokens"] ∧
    handle_request c8Env
        ⟨"2.0", "tools/call",
         Json.obj [("name", Json.str "nope"), ("arguments", Json.obj [])], Json.num 1⟩ =
      ⟨"2.0", none, some ⟨-32601, "Tool not found: " ++ "nope", none⟩, Json.num 1⟩ :=
  ⟨c8_dispatch_amended.1,
   c8_dispatch_amended.2 c8Env
     ⟨"2.0", "tools/call",
      Json.obj [("name", Json.str "nope"), ("arguments", Json.obj [])], Json.num 1⟩
     "nope" (Json.obj []) rfl rfl rfl (by decide) (by decide) (by decide)⟩

/-- C4 counterexample: with the token-side reserve zero (and the quote side
nonzero) but the token `decimals()` gateway call failing, the lookup fails
with the propagated `RpcError`, not a `PriceOracleError`: the two `decimals()`
calls run before the token-reserve-zero check. -/
theorem c4_pool_zero_counterexample :
    get_price_from_uniswap_pool
        ⟨true, .ok "P", .ok (0, 5), .ok "A", .error (EthError.rpcError "RPC 调用失败"), .ok 6⟩
        "A" "B" = some (Except.error (EthError.rpcError "RPC 调用失败")) := by
  decide
